import Mathlib

/-!
# Eng3D texture manager

A shallow embedding of `eng3d/src/texture.hpp` and `eng3d/src/texture.cpp`
(the desktop OpenGL backend, `E3D_BACKEND_OPENGL`) and of `fast_erase_all` from
`eng3d/src/utils.hpp`, followed by theorems about the texture cache, the
deferred upload queue, the upload paths and the texture array.

Modelling conventions
* Objects that the C++ code handles through pointers (`Texture*`,
  `std::shared_ptr<Texture>`) live in `State.heap`; a pointer is the index of
  the object in the heap, and "the very same instance" is equality of indices.
  A destroyed object leaves `none` in its slot; addresses are never reused.
* Every call to an external collaborator (image decoder, font rasterizer,
  OpenGL, `SDL_FreeSurface`) is appended to `State.log`, in call order.
* `std::unordered_map` is modelled by an association list searched with the
  key equality of the map (`std::equal_to` on the key type).
* Mutexes are not modelled: every operation runs to completion on its own.
* Logging (`Eng3D::Log::debug`) and the `E3D_DEBUG` block of `_upload` only
  read state and are left out.
-/

namespace Eng3D

/-! ## OpenGL constants (values of `GL/gl.h` and `GL/glext.h`) -/

abbrev GLenum := Nat

abbrev GL_TEXTURE_2D : GLenum := 0x0DE1
abbrev GL_UNPACK_ROW_LENGTH : GLenum := 0x0CF2
abbrev GL_UNPACK_ALIGNMENT : GLenum := 0x0CF5
abbrev GL_UNSIGNED_BYTE : GLenum := 0x1401
abbrev GL_RED : GLenum := 0x1903
abbrev GL_ALPHA : GLenum := 0x1906
abbrev GL_RGB : GLenum := 0x1907
abbrev GL_RGBA : GLenum := 0x1908
abbrev GL_LUMINANCE : GLenum := 0x1909
abbrev GL_LUMINANCE_ALPHA : GLenum := 0x190A
abbrev GL_NEAREST : GLenum := 0x2600
abbrev GL_LINEAR : GLenum := 0x2601
abbrev GL_NEAREST_MIPMAP_NEAREST : GLenum := 0x2700
abbrev GL_LINEAR_MIPMAP_NEAREST : GLenum := 0x2701
abbrev GL_NEAREST_MIPMAP_LINEAR : GLenum := 0x2702
abbrev GL_LINEAR_MIPMAP_LINEAR : GLenum := 0x2703
abbrev GL_TEXTURE_MAG_FILTER : GLenum := 0x2800
abbrev GL_TEXTURE_MIN_FILTER : GLenum := 0x2801
abbrev GL_TEXTURE_WRAP_S : GLenum := 0x2802
abbrev GL_TEXTURE_WRAP_T : GLenum := 0x2803
abbrev GL_REPEAT : GLenum := 0x2901
abbrev GL_INTENSITY : GLenum := 0x8049
abbrev GL_BGR : GLenum := 0x80E0
abbrev GL_BGRA : GLenum := 0x80E1
abbrev GL_CLAMP_TO_EDGE : GLenum := 0x812F
abbrev GL_COMPRESSED_RED : GLenum := 0x8225
abbrev GL_COMPRESSED_RG : GLenum := 0x8226
abbrev GL_RG : GLenum := 0x8227
abbrev GL_COMPRESSED_ALPHA : GLenum := 0x84E9
abbrev GL_COMPRESSED_LUMINANCE : GLenum := 0x84EA
abbrev GL_COMPRESSED_LUMINANCE_ALPHA : GLenum := 0x84EB
abbrev GL_COMPRESSED_INTENSITY : GLenum := 0x84EC
abbrev GL_COMPRESSED_RGB : GLenum := 0x84ED
abbrev GL_COMPRESSED_RGBA : GLenum := 0x84EE
abbrev GL_RGB32F : GLenum := 0x8815
abbrev GL_SRGB : GLenum := 0x8C40
abbrev GL_SRGB_ALPHA : GLenum := 0x8C42
abbrev GL_COMPRESSED_SRGB : GLenum := 0x8C48
abbrev GL_COMPRESSED_SRGB_ALPHA : GLenum := 0x8C49
abbrev GL_TEXTURE_2D_ARRAY : GLenum := 0x8C1A
abbrev GL_UNPACK_IMAGE_HEIGHT : GLenum := 0x806E

/-! ## `TextureOptions` (texture.hpp, lines 64-103) -/

inductive TextureOptions.Target where
  | TEXTURE_2D
  deriving DecidableEq, Repr

inductive TextureOptions.Wrap where
  | REPEAT
  | CLAMP_TO_EDGE
  deriving DecidableEq, Repr

inductive TextureOptions.Filter where
  | NEAREST
  | LINEAR
  | LINEAR_MIPMAP
  | NEAREST_MIPMAP
  | NEAREST_LINEAR_MIPMAP
  | LINEAR_NEAREST_MIPMAP
  deriving DecidableEq, Repr

inductive TextureOptions.Format where
  | RGBA
  | RED
  | RGB32F
  | SRGB
  | SRGB_ALPHA
  deriving DecidableEq, Repr

/-- The enum `TextureOptions::Type` (the name `Type` is reserved in Lean). -/
inductive TextureOptions.Type_ where
  | UNSIGNED_BYTE
  deriving DecidableEq, Repr

/-- The class `Eng3D::TextureOptions` with the default member initialisers of the header. -/
structure TextureOptions where
  target : TextureOptions.Target := TextureOptions.Target.TEXTURE_2D
  wrap_s : TextureOptions.Wrap := TextureOptions.Wrap.REPEAT
  wrap_t : TextureOptions.Wrap := TextureOptions.Wrap.REPEAT
  min_filter : TextureOptions.Filter := TextureOptions.Filter.NEAREST
  mag_filter : TextureOptions.Filter := TextureOptions.Filter.NEAREST
  format : TextureOptions.Format := TextureOptions.Format.RGBA
  internal_format : TextureOptions.Format := TextureOptions.Format.RGBA
  type : TextureOptions.Type_ := TextureOptions.Type_.UNSIGNED_BYTE
  editable : Bool := false
  compressed : Bool := true
  instant_upload : Bool := false
  deriving DecidableEq, Repr

/-- The member `TextureOptions::operator==` (texture.hpp, lines 99-101). -/
def TextureOptions.operator_eq (a o : TextureOptions) : Bool :=
  a.target == o.target && a.wrap_s == o.wrap_s && a.wrap_t == o.wrap_t
    && a.min_filter == o.min_filter && a.mag_filter == o.mag_filter
    && a.internal_format == o.internal_format && a.format == o.format
    && a.type == o.type && a.editable == o.editable

/-- The constant `Eng3D::default_options`. -/
def default_options : TextureOptions := {}

/-! ## `hash_combine` and `TextureMapHash` (texture.hpp, lines 138-161) -/

/-- The `std::hash<T>` specialisations used by `TextureMapHash`. The standard leaves
their values to the implementation, so they are parameters of the model. -/
structure StdHash where
  string : String → Nat
  target : TextureOptions.Target → Nat
  wrap : TextureOptions.Wrap → Nat
  filter : TextureOptions.Filter → Nat
  format : TextureOptions.Format → Nat
  type : TextureOptions.Type_ → Nat
  bool : Bool → Nat

/-- One more than the largest `std::size_t` (64-bit target). -/
def SIZE_MOD : Nat := 2 ^ 64

/-- The function `hash_combine(s, v)`, given `hv = std::hash<T>()(v)`; returns the new
value of `s`: `s ^= h(v) + 0x9e3779b9 + (s << 6) + (s >> 2)` in `std::size_t` arithmetic. -/
def hash_combine (s : Nat) (hv : Nat) : Nat :=
  s ^^^ ((hv + 0x9e3779b9 + (s <<< 6) + (s >>> 2)) % SIZE_MOD)

/-- The call operator of `TextureMapHash`. -/
def TextureMapHash (h : StdHash) (key : String × TextureOptions) : Nat :=
  let res := 0
  let res := hash_combine res (h.string key.1)
  let s := key.2
  let res := hash_combine res (h.target s.target)
  let res := hash_combine res (h.wrap s.wrap_s)
  let res := hash_combine res (h.wrap s.wrap_t)
  let res := hash_combine res (h.filter s.min_filter)
  let res := hash_combine res (h.filter s.mag_filter)
  let res := hash_combine res (h.format s.internal_format)
  let res := hash_combine res (h.format s.format)
  let res := hash_combine res (h.type s.type)
  let res := hash_combine res (h.bool s.editable)
  res

/-- Key equality of the path-keyed map: `std::equal_to` on
`std::pair<std::string, TextureOptions>`, i.e. string equality and `operator==`. -/
def key_eq (a b : String × TextureOptions) : Bool :=
  a.1 == b.1 && a.2.operator_eq b.2

/-! ## SDL surfaces -/

/-- The fields of `SDL_PixelFormat` read by `_upload(SDL_Surface*)`. -/
structure SDL_PixelFormat where
  BytesPerPixel : Nat
  Rmask : Nat
  deriving DecidableEq, Repr

/-- An `SDL_Surface` behind a pointer: `addr` is the address of the surface (its
identity), the other fields are the members read by the code. -/
structure SDL_Surface where
  addr : Nat
  w : Int
  h : Int
  pitch : Int
  format : SDL_PixelFormat
  pixels : List Nat
  deriving DecidableEq, Repr

/-- The colour handed to the font rasterizer (`SDL_Color`, after the conversion
`static_cast<Uint8>(c * 255.f)` of each channel of `Eng3D::Color`). -/
structure Color where
  r : Nat
  g : Nat
  b : Nat
  deriving DecidableEq, Repr

/-! ## Images and textures -/

/-- The members of `Eng3D::BinaryImage` used by the texture code. -/
structure BinaryImage where
  width : Nat := 0
  height : Nat := 0
  bpp : Nat := 0
  buffer : Option (List Nat) := none
  deriving DecidableEq, Repr

/-- The class `Eng3D::Texture` (texture.hpp, lines 105-126): a `BinaryImage` plus the
device handle `id` (0 = none) and the `managed` flag. -/
structure Texture extends BinaryImage where
  id : Nat := 0
  managed : Bool := false
  deriving DecidableEq, Repr

/-- The default constructor `Texture()`: an empty image without buffer. -/
def Texture.new : Texture := {}

/-- The constructor `Texture(width, height, bpp = 32)`: a zero-filled buffer of
`width * height` pixels. -/
def Texture.new_size (width height : Nat) (bpp : Nat) : Texture :=
  { width := width, height := height, bpp := bpp,
    buffer := some (List.replicate (width * height) 0) }

/-- The constructor `Texture(path)` when `BinaryImage(path)` decoded `img`. -/
def Texture.of_image (img : BinaryImage) : Texture :=
  { toBinaryImage := img }

/-- The method `Texture::create_dummy` (texture.cpp, lines 82-93) on the object `t`:
an 8 x 8 buffer with `buffer[i] = ((i * 8) << 16) | (i * 16)` stored as `uint32_t`. -/
def Texture.create_dummy (t : Texture) : Texture :=
  let width := 8
  let height := 8
  { t with
    width := width
    height := height
    buffer := some ((List.range (width * height)).map
      (fun i => ((((i * 8) <<< 16) ||| (i * 16)) % SIZE_MOD) % 2 ^ 32)) }

/-! ## Upload requests, the manager and the program state -/

/-- The class `TextureUploadRequest` (texture.hpp, lines 163-168). -/
structure TextureUploadRequest where
  texture : Nat
  options : TextureOptions := {}
  surface : Option SDL_Surface := none
  deriving DecidableEq, Repr

/-- The data members of `TextureManager` (texture.hpp, lines 174-180). -/
structure TextureManager where
  textures : List ((String × TextureOptions) × Nat) := []
  unuploaded_textures : List TextureUploadRequest := []
  white : Option Nat := none
  text_textures : List (String × Nat) := []
  deriving DecidableEq, Repr

/-- Calls to external collaborators, as recorded in `State.log`. The pointer argument
of `glTexSubImage3D` is recorded as its offset (in pixels) from the start of the buffer. -/
inductive Event where
  | BinaryImage_load (path : String)
  | TTF_RenderUTF8_Blended (font : Nat) (color : Color) (msg : String)
  | SDL_FreeSurface (addr : Nat)
  | glGenTextures (id : Nat)
  | glDeleteTextures (id : Nat)
  | glBindTexture (target : GLenum) (id : Nat)
  | glTexImage2D (target : GLenum) (level : Int) (internalformat : Int) (width : Int)
      (height : Int) (border : Int) (format : GLenum) (type : GLenum)
      (data : Option (List Nat))
  | glTexParameteri (target : GLenum) (pname : GLenum) (param : Int)
  | glPixelStorei (pname : GLenum) (param : Int)
  | glGenerateMipmap (target : GLenum)
  | glTexImage3D (target : GLenum) (level : Int) (internalformat : Int) (width : Int)
      (height : Int) (depth : Int) (border : Int) (format : GLenum) (type : GLenum)
      (data : Option (List Nat))
  | glTexSubImage3D (target : GLenum) (level : Int) (xoffset : Int) (yoffset : Int)
      (zoffset : Int) (width : Int) (height : Int) (depth : Int) (format : GLenum)
      (type : GLenum) (pixels_offset : Nat)
  deriving DecidableEq, Repr

/-- The program state: the texture manager of `Eng3D::State` (`s.tex_man`), the
texture objects, the device (`gl_names` is the number of texture names generated so
far, `gl_textures` holds the live names) and the trace of external calls. -/
structure State where
  tex_man : TextureManager := {}
  heap : List (Option Texture) := []
  gl_names : Nat := 0
  gl_textures : List Nat := []
  log : List Event := []
  deriving DecidableEq, Repr

/-- The texture object at address `p`, if it is alive. -/
def State.tex (st : State) (p : Nat) : Option Texture :=
  (st.heap.get? p).join

/-- Store `t` in the object at address `p`. -/
def State.setTex (st : State) (p : Nat) (t : Texture) : State :=
  { st with heap := st.heap.set p (some t) }

/-- Assign to members of the object at address `p` (`p->member = value`). -/
def State.modifyTex (st : State) (p : Nat) (f : Texture → Texture) : State :=
  match st.tex p with
  | some t => st.setTex p (f t)
  | none => st

/-- Record one external call. -/
def State.emit (st : State) (e : Event) : State :=
  { st with log := st.log ++ [e] }

/-- Allocate a new texture object (`std::make_shared<Texture>`); returns its address. -/
def State.alloc (st : State) (t : Texture) : Nat × State :=
  (st.heap.length, { st with heap := st.heap ++ [some t] })

/-- Replace the upload queue. -/
def State.setQueue (st : State) (q : List TextureUploadRequest) : State :=
  { st with tex_man := { st.tex_man with unuploaded_textures := q } }

/-- The device call `glGenTextures(1, &id)`: a fresh non-zero name is created and
returned (the caller stores it in `id`). -/
def State.glGenTextures (st : State) : Nat × State :=
  (st.gl_names + 1,
    { st with gl_names := st.gl_names + 1,
              gl_textures := st.gl_textures ++ [st.gl_names + 1] }.emit
      (Event.glGenTextures (st.gl_names + 1)))

/-- The device call `glDeleteTextures(1, &id)`: the name stops being live; the
variable `id` itself is not written. -/
def State.glDeleteTextures (st : State) (id : Nat) : State :=
  { st with gl_textures := st.gl_textures.filter (fun n => n != id) }.emit
    (Event.glDeleteTextures id)

/-- The value of a C `int` expression whose exact result is `i`: 32-bit two's complement
wrap-around, the identity on `-2^31 <= i < 2^31`. -/
def c_int (i : Int) : Int :=
  (i + 2 ^ 31) % 2 ^ 32 - 2 ^ 31

/-- Conversion of a C `int` to `std::size_t` (`static_cast<size_t>`). -/
def size_t_of_int (i : Int) : Nat :=
  (i % (SIZE_MOD : Int)).toNat

/-! ## `Texture` methods (texture.cpp, lines 64-416) -/

/-- The method `Texture::delete_gputex` (lines 412-416) on an object whose handle is `id`. -/
def Texture.delete_gputex (id : Nat) (st : State) : State :=
  st.glDeleteTextures id

/-- The method `Texture::gen_mipmaps` (lines 397-402) on an object whose handle is `id`. -/
def Texture.gen_mipmaps (id : Nat) (st : State) : State :=
  (st.emit (Event.glBindTexture GL_TEXTURE_2D id)).emit (Event.glGenerateMipmap GL_TEXTURE_2D)

/-- The switches over `options.internal_format` (lines 142-160) and over
`options.format` (lines 203-221); both have the same cases. -/
def gl_format (f : TextureOptions.Format) : GLenum :=
  match f with
  | TextureOptions.Format.RGBA => GL_RGBA
  | TextureOptions.Format.RED => GL_RED
  | TextureOptions.Format.SRGB => GL_SRGB
  | TextureOptions.Format.RGB32F => GL_RGB32F
  | TextureOptions.Format.SRGB_ALPHA => GL_SRGB_ALPHA

/-- The switch over `internal_format` inside the compression branch (lines 165-198). -/
def gl_compressed_format (internal_format : GLenum) : GLenum :=
  if internal_format = GL_ALPHA then GL_COMPRESSED_ALPHA
  else if internal_format = GL_LUMINANCE then GL_COMPRESSED_LUMINANCE
  else if internal_format = GL_LUMINANCE_ALPHA then GL_COMPRESSED_LUMINANCE_ALPHA
  else if internal_format = GL_INTENSITY then GL_COMPRESSED_INTENSITY
  else if internal_format = GL_RED then GL_COMPRESSED_RED
  else if internal_format = GL_RGB then GL_COMPRESSED_RGB
  else if internal_format = GL_RGBA then GL_COMPRESSED_RGBA
  else if internal_format = GL_SRGB then GL_COMPRESSED_SRGB
  else if internal_format = GL_SRGB_ALPHA then GL_COMPRESSED_SRGB_ALPHA
  else if internal_format = GL_RG then GL_COMPRESSED_RG
  else internal_format

/-- The value of the local `internal_format` of `_upload(options)` at the call of
`glTexImage2D` (lines 141-199). -/
def upload_internal_format (options : TextureOptions) : GLenum :=
  let internal_format := gl_format options.internal_format
  if !options.editable && options.compressed then gl_compressed_format internal_format
  else internal_format

/-- The switch over `options.type` (lines 223-230). -/
def gl_type (t : TextureOptions.Type_) : GLenum :=
  match t with
  | TextureOptions.Type_.UNSIGNED_BYTE => GL_UNSIGNED_BYTE

/-- The switches over `options.wrap_s` and `options.wrap_t` (lines 232-254). -/
def gl_wrap (w : TextureOptions.Wrap) : GLenum :=
  match w with
  | TextureOptions.Wrap.REPEAT => GL_REPEAT
  | TextureOptions.Wrap.CLAMP_TO_EDGE => GL_CLAMP_TO_EDGE

/-- The switches over `options.min_filter` and `options.mag_filter` (lines 256-302). -/
def gl_filter (f : TextureOptions.Filter) : GLenum :=
  match f with
  | TextureOptions.Filter.NEAREST => GL_NEAREST
  | TextureOptions.Filter.LINEAR => GL_LINEAR
  | TextureOptions.Filter.LINEAR_MIPMAP => GL_LINEAR_MIPMAP_LINEAR
  | TextureOptions.Filter.NEAREST_MIPMAP => GL_NEAREST_MIPMAP_NEAREST
  | TextureOptions.Filter.NEAREST_LINEAR_MIPMAP => GL_NEAREST_MIPMAP_LINEAR
  | TextureOptions.Filter.LINEAR_NEAREST_MIPMAP => GL_LINEAR_MIPMAP_NEAREST

/-- The final switch of `_upload(options)` (lines 324-333): whether `gen_mipmaps` is called. -/
def upload_gen_mipmaps (options : TextureOptions) : Bool :=
  match options.min_filter with
  | TextureOptions.Filter.LINEAR_MIPMAP => true
  | TextureOptions.Filter.NEAREST_MIPMAP => true
  | TextureOptions.Filter.NEAREST_LINEAR_MIPMAP => true
  | TextureOptions.Filter.LINEAR_NEAREST_MIPMAP => true
  | _ => false

/-- The body of `Texture::_upload(TextureOptions)` (lines 133-334) on the object value
`t`: returns the new object value and the new device state. -/
def Texture._upload_body (t : Texture) (options : TextureOptions) (st : State) :
    Texture × State :=
  let st := if t.id ≠ 0 then Texture.delete_gputex t.id st else st
  let r := st.glGenTextures
  let t := { t with id := r.1 }
  let st := r.2
  let st := st.emit (Event.glBindTexture GL_TEXTURE_2D t.id)
  let internal_format := upload_internal_format options
  let format := gl_format options.format
  let type := gl_type options.type
  let wrap_s := gl_wrap options.wrap_s
  let wrap_t := gl_wrap options.wrap_t
  let min_filter := gl_filter options.min_filter
  let mag_filter := gl_filter options.mag_filter
  let st := st.emit (Event.glTexImage2D GL_TEXTURE_2D 0 internal_format t.width t.height 0
    format type t.buffer)
  let st := st.emit (Event.glTexParameteri GL_TEXTURE_2D GL_TEXTURE_WRAP_S wrap_s)
  let st := st.emit (Event.glTexParameteri GL_TEXTURE_2D GL_TEXTURE_WRAP_T wrap_t)
  let st := st.emit (Event.glTexParameteri GL_TEXTURE_2D GL_TEXTURE_MIN_FILTER min_filter)
  let st := st.emit (Event.glTexParameteri GL_TEXTURE_2D GL_TEXTURE_MAG_FILTER mag_filter)
  let t := if !options.editable then { t with buffer := none } else t
  let st := if upload_gen_mipmaps options then Texture.gen_mipmaps t.id st else st
  (t, st)

/-- The method `Texture::_upload(TextureOptions)` called through the pointer `p`
(a call through a pointer to a destroyed object is not modelled and does nothing). -/
def Texture._upload (p : Nat) (options : TextureOptions) (st : State) : State :=
  match st.tex p with
  | none => st
  | some t =>
    let r := Texture._upload_body t options st
    r.2.setTex p r.1

/-- The loop `int alignment = 8; while(surface->pitch % alignment) alignment >>= 1;`
(lines 372-374), for a start value `2 ^ k`: it stops at 1 at the latest, since
`x % 1 == 0` for any `x`. -/
def unpack_alignment : Nat → Int → Int
  | 0, _ => 1
  | k + 1, pitch =>
    if pitch.tmod (2 ^ (k + 1)) ≠ 0 then unpack_alignment k pitch else 2 ^ (k + 1)

/-- The local `texture_format` of `_upload(surface)` (lines 347-370, `GL_BGRA` and
`GL_BGR` are defined on the desktop backend). -/
def surface_texture_format (surface : SDL_Surface) : GLenum :=
  if surface.format.BytesPerPixel = 4 then
    if surface.format.Rmask = 0x000000ff then GL_RGBA else GL_BGRA
  else
    if surface.format.Rmask = 0x000000ff then GL_RGB else GL_BGR

/-- The local `expected_pitch` of `_upload(surface)` (line 377):
`(surface->w * surface->format->BytesPerPixel + alignment - 1) / alignment * alignment`,
every operation in `int`. -/
def surface_expected_pitch (surface : SDL_Surface) (alignment : Int) : Int :=
  c_int ((c_int (c_int (c_int (surface.w * surface.format.BytesPerPixel) + alignment) - 1)).tdiv
    alignment * alignment)

/-- The body of `Texture::_upload(SDL_Surface*)` (lines 337-395) on the object value `t`. -/
def Texture._upload_surface_body (t : Texture) (surface : SDL_Surface) (st : State) :
    Texture × State :=
  if surface.w = 0 ∨ surface.h = 0 then (t, st)
  else
    let t := { t with buffer := none }
    let t := { t with width := size_t_of_int surface.w }
    let t := { t with height := size_t_of_int surface.h }
    let colors : Int := surface.format.BytesPerPixel
    let texture_format := surface_texture_format surface
    let alignment := unpack_alignment 3 surface.pitch
    let st := st.emit (Event.glPixelStorei GL_UNPACK_ALIGNMENT alignment)
    let expected_pitch := surface_expected_pitch surface alignment
    let st :=
      if c_int (surface.pitch - expected_pitch) ≥ alignment then
        st.emit (Event.glPixelStorei GL_UNPACK_ROW_LENGTH
          (surface.pitch.tdiv surface.format.BytesPerPixel))
      else
        st.emit (Event.glPixelStorei GL_UNPACK_ROW_LENGTH 0)
    let r := st.glGenTextures
    let t := { t with id := r.1 }
    let st := r.2
    let st := st.emit (Event.glBindTexture GL_TEXTURE_2D t.id)
    let st := st.emit (Event.glTexImage2D GL_TEXTURE_2D 0 colors surface.w surface.h 0
      texture_format GL_UNSIGNED_BYTE (some surface.pixels))
    let st := st.emit (Event.glTexParameteri GL_TEXTURE_2D GL_TEXTURE_MIN_FILTER
      GL_LINEAR_MIPMAP_LINEAR)
    let st := st.emit (Event.glTexParameteri GL_TEXTURE_2D GL_TEXTURE_MAG_FILTER GL_LINEAR)
    let st := st.emit (Event.glPixelStorei GL_UNPACK_ALIGNMENT 4)
    let st := st.emit (Event.glPixelStorei GL_UNPACK_ROW_LENGTH 0)
    let st := Texture.gen_mipmaps t.id st
    let st := st.emit (Event.SDL_FreeSurface surface.addr)
    (t, st)

/-- The method `Texture::_upload(SDL_Surface*)` called through the pointer `p`. -/
def Texture._upload_surface (p : Nat) (surface : SDL_Surface) (st : State) : State :=
  match st.tex p with
  | none => st
  | some t =>
    let r := Texture._upload_surface_body t surface st
    r.2.setTex p r.1

/-- The method `Texture::upload(TextureOptions)` (lines 97-111) called through `p`. -/
def Texture.upload (p : Nat) (options : TextureOptions) (st : State) : State :=
  match st.tex p with
  | none => st
  | some t =>
    if options.instant_upload || !t.managed then
      Texture._upload p options st
    else
      if t.managed then
        let request : TextureUploadRequest := { texture := p }
        let request := { request with options := options }
        st.setQueue (st.tex_man.unuploaded_textures ++ [request])
      else st

/-- The method `Texture::upload(SDL_Surface*)` (lines 117-131) called through `p`. -/
def Texture.upload_surface (p : Nat) (surface : SDL_Surface) (st : State) : State :=
  match st.tex p with
  | none => st
  | some t =>
    if !t.managed then
      Texture._upload_surface p surface st
    else
      if t.managed then
        let request : TextureUploadRequest := { texture := p }
        let request := { request with surface := some surface }
        st.setQueue (st.tex_man.unuploaded_textures ++ [request])
      else st

/-- The destructor `Texture::~Texture` (lines 64-78) of the object at `p`, followed by
the end of the lifetime of the object. `std::find_if` followed by `erase(it)` removes
the first request whose target is `p`. -/
def Texture.destroy (p : Nat) (st : State) : State :=
  match st.tex p with
  | none => st
  | some t =>
    let st := if t.id ≠ 0 then Texture.delete_gputex t.id st else st
    let st :=
      if t.managed then
        st.setQueue (st.tex_man.unuploaded_textures.eraseP (fun e => e.texture == p))
      else st
    { st with heap := st.heap.set p none }

/-! ## `TextureManager` methods (texture.cpp, lines 488-589) -/

/-- The loop of `TextureManager::~TextureManager` (lines 498-503) over the queue:
returns the `SDL_FreeSurface` calls and the queue with the freed surfaces nulled. -/
def free_pending_surfaces :
    List TextureUploadRequest → List Event × List TextureUploadRequest
  | [] => ([], [])
  | request :: rest =>
    let r := free_pending_surfaces rest
    match request.surface with
    | some surface =>
      (Event.SDL_FreeSurface surface.addr :: r.1, { request with surface := none } :: r.2)
    | none => (r.1, request :: r.2)

/-- The body of the destructor `TextureManager::~TextureManager` (lines 494-504). -/
def TextureManager.destroy (st : State) : State :=
  let r := free_pending_surfaces st.tex_man.unuploaded_textures
  { st with log := st.log ++ r.1 }.setQueue r.2

/-- The method `TextureManager::get_white` (lines 506-513). -/
def TextureManager.get_white (st : State) : Nat × State :=
  match st.tex_man.white with
  | some p => (p, st)
  | none =>
    let r := st.alloc (Texture.new_size 1 1 32)
    let p := r.1
    let st := r.2
    let st := { st with tex_man := { st.tex_man with white := some p } }
    let st := st.modifyTex p
      (fun t => { t with buffer := t.buffer.map (fun b => b.set 0 0xFFFFFFFF) })
    let st := Texture.upload p default_options st
    (p, st)

/-- The call `textures.find(key)` on the path-keyed map. -/
def find_texture (m : List ((String × TextureOptions) × Nat)) (key : String × TextureOptions) :
    Option Nat :=
  (m.find? (fun e => key_eq e.1 key)).map (fun e => e.2)

/-- The assignment `textures[key] = tex`: the entry with an equal key is overwritten
(its stored key is kept), otherwise a new entry is inserted. -/
def assign_texture (m : List ((String × TextureOptions) × Nat)) (key : String × TextureOptions)
    (tex : Nat) : List ((String × TextureOptions) × Nat) :=
  if (m.find? (fun e => key_eq e.1 key)).isSome then
    m.map (fun e => if key_eq e.1 key then (e.1, tex) else e)
  else m ++ [(key, tex)]

/-- The call `text_textures.find(msg)` on the text-keyed map. -/
def find_text (m : List (String × Nat)) (msg : String) : Option Nat :=
  (m.find? (fun e => e.1 == msg)).map (fun e => e.2)

/-- The assignment `text_textures[msg] = tex`. -/
def assign_text (m : List (String × Nat)) (msg : String) (tex : Nat) : List (String × Nat) :=
  if (m.find? (fun e => e.1 == msg)).isSome then
    m.map (fun e => if e.1 == msg then (e.1, tex) else e)
  else m ++ [(msg, tex)]

/-- The method `TextureManager::load(path, options)` (lines 521-541). The image decoder
behind `BinaryImage(path)` is the parameter `decode`: `none` stands for a
`BinaryImageException`, which `load` catches. Returns the shared texture and the new
state. Failure of a memory allocation is not modelled, so nothing is raised. -/
def TextureManager.load (decode : String → Option BinaryImage) (path : String)
    (options : TextureOptions) (st : State) : Nat × State :=
  let key := (path, options)
  match find_texture st.tex_man.textures key with
  | some tex => (tex, st)
  | none =>
    let st := st.emit (Event.BinaryImage_load path)
    let r :=
      match decode path with
      | some img => st.alloc (Texture.of_image img)
      | none => st.alloc (Texture.create_dummy Texture.new)
    let tex := r.1
    let st := r.2
    let st := st.modifyTex tex (fun t => { t with managed := true })
    let st := Texture.upload tex options st
    let st := { st with tex_man :=
      { st.tex_man with textures := assign_texture st.tex_man.textures key tex } }
    ((find_texture st.tex_man.textures key).getD tex, st)

/-- The method `TextureManager::gen_text(font, color, msg)` (lines 547-574). The font
rasterizer `TTF_RenderUTF8_Blended` is the parameter `ttf`: `none` stands for a null
surface. Returns the shared texture, or the message of the `std::runtime_error`
raised, and the new state. -/
def TextureManager.gen_text (ttf : Nat → Color → String → Option SDL_Surface) (font : Nat)
    (color : Color) (msg : String) (st : State) : Except String Nat × State :=
  if msg = "" then
    let r := TextureManager.get_white st
    (Except.ok r.1, r.2)
  else
    match find_text st.tex_man.text_textures msg with
    | some tex => (Except.ok tex, st)
    | none =>
      let r := st.alloc Texture.new
      let tex := r.1
      let st := r.2
      let st := st.emit (Event.TTF_RenderUTF8_Blended font color msg)
      match ttf font color msg with
      | none => (Except.error "Cannot create text surface", Texture.destroy tex st)
      | some surface =>
        let st := st.modifyTex tex (fun t => { t with managed := true })
        let st := st.modifyTex tex (fun t => { t with width := size_t_of_int surface.w })
        let st := st.modifyTex tex (fun t => { t with height := size_t_of_int surface.h })
        let st := Texture.upload_surface tex surface st
        let st := { st with tex_man :=
          { st.tex_man with text_textures := assign_text st.tex_man.text_textures msg tex } }
        (Except.ok ((find_text st.tex_man.text_textures msg).getD tex), st)

/-- The branch of `TextureManager::upload()` that performs the copied `request`
(lines 581-586). -/
def TextureManager.perform_request (request : TextureUploadRequest) (st : State) : State :=
  match request.surface with
  | some surface => Texture._upload_surface request.texture surface st
  | none => Texture._upload request.texture request.options st

/-- The method `TextureManager::upload()` (lines 576-589): performs the request at
`end() - 1` and erases it. -/
def TextureManager.upload (st : State) : State :=
  match st.tex_man.unuploaded_textures.getLast? with
  | none => st
  | some request =>
    let st := TextureManager.perform_request request st
    st.setQueue st.tex_man.unuploaded_textures.dropLast

/-! ## `fast_erase_all` (utils.hpp, lines 105-114) -/

/-- The loop `for(auto i = c.size(); i-- > 0; )` of `fast_erase_all` with the counter at
`i` before the test: the body runs with index `i - 1`, overwrites a matching `c[i - 1]`
with `c.back()` and pops the back. (A matching element exists only in a non-empty
container, so the branch without a back element is never taken.) -/
def fast_erase_all_loop {α : Type} [DecidableEq α] : Nat → List α → α → List α
  | 0, c, _ => c
  | i + 1, c, value =>
    if c.get? i = some value then
      match c.getLast? with
      | some back => fast_erase_all_loop i ((c.set i back).dropLast) value
      | none => fast_erase_all_loop i c value
    else fast_erase_all_loop i c value

/-- The function template `Eng3D::fast_erase_all(c, value)` on a container given as the
sequence of its elements. -/
def fast_erase_all {α : Type} [DecidableEq α] (c : List α) (value : α) : List α :=
  fast_erase_all_loop c.length c value

/-! ## `TextureArray` (texture.hpp, lines 129-136; texture.cpp, lines 444-483) -/

/-- The class `Eng3D::TextureArray`: a `BinaryImage` cut into `tiles_x` by `tiles_y` tiles. -/
structure TextureArray extends BinaryImage where
  layers : Nat := 0
  tiles_x : Nat
  tiles_y : Nat
  id : Nat := 0
  deriving DecidableEq, Repr

/-- The two nested loops of `TextureArray::upload` (lines 473-475): one `glTexSubImage3D`
per pair `x < tiles_x`, `y < tiles_y`, with `x` in the outer loop. -/
def TextureArray.tile_uploads (a : TextureArray) : List Event :=
  let p_dx : Nat := a.width / a.tiles_x
  let p_dy : Nat := a.height / a.tiles_y
  (List.range a.tiles_x).flatMap (fun x =>
    (List.range a.tiles_y).map (fun y =>
      Event.glTexSubImage3D GL_TEXTURE_2D_ARRAY 0 0 0 (x * a.tiles_x + y : Nat) p_dx p_dy 1
        GL_RGBA GL_UNSIGNED_BYTE (x * p_dy * a.width + y * p_dx)))

/-- The method `TextureArray::upload` (lines 453-483) on the object value `a`. -/
def TextureArray.upload (a : TextureArray) (st : State) : TextureArray × State :=
  let r := st.glGenTextures
  let a := { a with id := r.1 }
  let st := r.2
  let st := st.emit (Event.glBindTexture GL_TEXTURE_2D_ARRAY a.id)
  let st := st.emit (Event.glTexParameteri GL_TEXTURE_2D_ARRAY GL_TEXTURE_MIN_FILTER GL_LINEAR)
  let st := st.emit (Event.glTexParameteri GL_TEXTURE_2D_ARRAY GL_TEXTURE_MAG_FILTER GL_LINEAR)
  let st := st.emit (Event.glTexParameteri GL_TEXTURE_2D_ARRAY GL_TEXTURE_WRAP_S GL_REPEAT)
  let st := st.emit (Event.glTexParameteri GL_TEXTURE_2D_ARRAY GL_TEXTURE_WRAP_T GL_REPEAT)
  let p_dx : Nat := a.width / a.tiles_x
  let p_dy : Nat := a.height / a.tiles_y
  let st := st.emit (Event.glTexImage3D GL_TEXTURE_2D_ARRAY 0 GL_RGBA p_dx p_dy 16 0 GL_RGBA
    GL_UNSIGNED_BYTE none)
  let st := st.emit (Event.glPixelStorei GL_UNPACK_ROW_LENGTH a.width)
  let st := st.emit (Event.glPixelStorei GL_UNPACK_IMAGE_HEIGHT a.height)
  let st := { st with log := st.log ++ TextureArray.tile_uploads a }
  let st := st.emit (Event.glBindTexture GL_TEXTURE_2D_ARRAY 0)
  let st := st.emit (Event.glPixelStorei GL_UNPACK_ROW_LENGTH 0)
  let st := st.emit (Event.glPixelStorei GL_UNPACK_IMAGE_HEIGHT 0)
  (a, st)

/-! ## Sequences of client calls -/

/-- One call that a client of the texture subsystem can make. Destruction of a texture
is not among them: the maps and `white` share ownership of every texture they hold, so
a cached texture outlives all calls. -/
inductive Call where
  | load (path : String) (options : TextureOptions)
  | gen_text (font : Nat) (color : Color) (msg : String)
  | get_white
  | drain
  | upload (p : Nat) (options : TextureOptions)
  | upload_surface (p : Nat) (surface : SDL_Surface)
  deriving DecidableEq, Repr

/-- The state after one client call (results are dropped). -/
def Call.run (decode : String → Option BinaryImage)
    (ttf : Nat → Color → String → Option SDL_Surface) : Call → State → State
  | Call.load path options, st => (TextureManager.load decode path options st).2
  | Call.gen_text font color msg, st => (TextureManager.gen_text ttf font color msg st).2
  | Call.get_white, st => (TextureManager.get_white st).2
  | Call.drain, st => TextureManager.upload st
  | Call.upload p options, st => Texture.upload p options st
  | Call.upload_surface p surface, st => Texture.upload_surface p surface st

/-- The state after a sequence of client calls, first call first. -/
def run_calls (decode : String → Option BinaryImage)
    (ttf : Nat → Color → String → Option SDL_Surface) : List Call → State → State
  | [], st => st
  | c :: cs, st => run_calls decode ttf cs (c.run decode ttf st)

/-- A state `st'` extends the caches of `st`: every entry that a lookup finds in `st`
is found in `st'` with the same texture, and `white`, once set, keeps its value. -/
def CachesKept (st st' : State) : Prop :=
  (∀ key tex, find_texture st.tex_man.textures key = some tex →
    find_texture st'.tex_man.textures key = some tex) ∧
  (∀ msg tex, find_text st.tex_man.text_textures msg = some tex →
    find_text st'.tex_man.text_textures msg = some tex) ∧
  (∀ p, st.tex_man.white = some p → st'.tex_man.white = some p)

/-- The state in which the program starts: no texture object, an empty manager, no
device name and an empty trace. -/
def State.initial : State := {}

/-- Every pending request targets the address of an object that has been allocated. -/
def QueueAllocated (st : State) : Prop :=
  ∀ r ∈ st.tex_man.unuploaded_textures, r.texture < st.heap.length

/-! ## Sample inputs used to instantiate the theorems -/

/-- A concrete hash family: string length and constructor indices. -/
def sample_hash : StdHash :=
  { string := fun s => s.length
    target := fun _ => 0
    wrap := fun w => match w with
      | TextureOptions.Wrap.REPEAT => 0
      | TextureOptions.Wrap.CLAMP_TO_EDGE => 1
    filter := fun _ => 2
    format := fun _ => 3
    type := fun _ => 0
    bool := fun b => if b then 1 else 0 }

/-- A cache-managed 2 x 2 texture whose CPU buffer is present and which was never uploaded. -/
def sample_texture : Texture :=
  { width := 2, height := 2, bpp := 32, buffer := some [1, 2, 3, 4], managed := true }

/-- A state with two managed textures (addresses 0 and 1) and an empty queue. -/
def sample_state : State :=
  { heap := [some sample_texture, some { sample_texture with buffer := some [5, 6, 7, 8] }] }

/-- A state with one texture that is not cache-managed and an empty queue. -/
def sample_unmanaged_state : State :=
  { heap := [some { sample_texture with managed := false }] }

/-- A surface of width 0 at address 7. -/
def zero_width_surface : SDL_Surface :=
  { addr := 7, w := 0, h := 5, pitch := 0, format := { BytesPerPixel := 4, Rmask := 0xff },
    pixels := [] }

/-- A 2 x 1 RGBA surface at address 9 (row stride 8 bytes). -/
def sample_surface : SDL_Surface :=
  { addr := 9, w := 2, h := 1, pitch := 8, format := { BytesPerPixel := 4, Rmask := 0xff },
    pixels := [10, 20] }

/-- A decoder for which every file is missing. -/
def missing_file : String → Option BinaryImage :=
  fun _ => none

/-- A font rasterizer that renders every text to `sample_surface`. -/
def sample_ttf : Nat → Color → String → Option SDL_Surface :=
  fun _ _ _ => some sample_surface

/-- A font rasterizer that always fails. -/
def failing_ttf : Nat → Color → String → Option SDL_Surface :=
  fun _ _ _ => none

/-- A decoder for which every file holds a 1 x 1 image. -/
def sample_decode : String → Option BinaryImage :=
  fun _ => some { width := 1, height := 1, bpp := 32, buffer := some [0xFF00FF00] }

/-- An 8 x 8 image cut into 4 x 4 tiles of 2 x 2 pixels; pixel `i` holds `i`. -/
def sample_array_4x4 : TextureArray :=
  { width := 8, height := 8, bpp := 32, buffer := some (List.range 64),
    tiles_x := 4, tiles_y := 4 }

/-- A 5 x 5 image cut into 5 x 5 tiles of one pixel. -/
def sample_array_5x5 : TextureArray :=
  { width := 5, height := 5, bpp := 32, buffer := some (List.range 25),
    tiles_x := 5, tiles_y := 5 }

/-- A 2 x 1 image cut into 2 x 1 tiles of one pixel. -/
def sample_array_2x1 : TextureArray :=
  { width := 2, height := 1, bpp := 32, buffer := some [0, 1], tiles_x := 2, tiles_y := 1 }

/-- A surface of width 0 whose row stride is 8 bytes, at address 11. -/
def zero_width_padded_surface : SDL_Surface :=
  { addr := 11, w := 0, h := 5, pitch := 8, format := { BytesPerPixel := 4, Rmask := 0xff },
    pixels := [] }

/-- A 3 x 1 surface of 3 bytes per pixel whose rows are padded to 16 bytes, at address 13. -/
def padded_surface : SDL_Surface :=
  { addr := 13, w := 3, h := 1, pitch := 16, format := { BytesPerPixel := 3, Rmask := 0xff },
    pixels := [1, 2, 3] }

/-- A surface whose `w * BytesPerPixel` is `2^32`, beyond the range of `int` (width
`2^30`, 4 bytes per pixel), with a row stride of 8, at address 17. -/
def overflowing_surface : SDL_Surface :=
  { addr := 17, w := 1073741824, h := 1, pitch := 8,
    format := { BytesPerPixel := 4, Rmask := 0xff }, pixels := [] }

/-! ## Basic facts about the heap and the device -/

theorem State.tex_lt {st : State} {p : Nat} {t : Texture} (h : st.tex p = some t) :
    p < st.heap.length := by
  unfold State.tex at h
  by_contra hlt
  have : st.heap.get? p = none := List.get?_eq_none.mpr (by omega)
  rw [this] at h
  simp at h

theorem State.tex_setTex_self (st : State) (p : Nat) (t : Texture) (h : p < st.heap.length) :
    (st.setTex p t).tex p = some t := by
  simp [State.tex, State.setTex, h]

theorem State.tex_setTex_of_ne (st : State) (p q : Nat) (t : Texture) (h : q ≠ p) :
    (st.setTex p t).tex q = st.tex q := by
  simp [State.tex, State.setTex, List.getElem?_set_ne (Ne.symm h)]

@[simp] theorem State.setTex_tex_man (st : State) (p : Nat) (t : Texture) :
    (st.setTex p t).tex_man = st.tex_man := rfl

@[simp] theorem State.setTex_log (st : State) (p : Nat) (t : Texture) :
    (st.setTex p t).log = st.log := rfl

@[simp] theorem State.setTex_gl_names (st : State) (p : Nat) (t : Texture) :
    (st.setTex p t).gl_names = st.gl_names := rfl

@[simp] theorem State.setTex_gl_textures (st : State) (p : Nat) (t : Texture) :
    (st.setTex p t).gl_textures = st.gl_textures := rfl

@[simp] theorem State.setTex_heap_length (st : State) (p : Nat) (t : Texture) :
    (st.setTex p t).heap.length = st.heap.length := by
  simp [State.setTex]

theorem State.tex_alloc (st : State) (t : Texture) :
    (st.alloc t).2.tex (st.alloc t).1 = some t := by
  simp [State.tex, State.alloc]

theorem State.tex_alloc_of_lt (st : State) (t : Texture) (q : Nat) (h : q < st.heap.length) :
    (st.alloc t).2.tex q = st.tex q := by
  simp [State.tex, State.alloc, List.getElem?_append_left h]

/-! ## Effect of `_upload(options)` -/

theorem Texture._upload_body_fst (t : Texture) (o : TextureOptions) (st : State) :
    (Texture._upload_body t o st).1 =
      { t with id := st.gl_names + 1, buffer := if o.editable then t.buffer else none } := by
  unfold Texture._upload_body
  cases h : o.editable <;> by_cases h0 : t.id = 0 <;>
    simp [Texture.delete_gputex, State.glDeleteTextures, State.glGenTextures, State.emit, h0]

theorem Texture._upload_body_tex_man (t : Texture) (o : TextureOptions) (st : State) :
    (Texture._upload_body t o st).2.tex_man = st.tex_man := by
  unfold Texture._upload_body
  by_cases h0 : t.id = 0 <;> cases hm : upload_gen_mipmaps o <;>
    simp [Texture.delete_gputex, State.glDeleteTextures, State.glGenTextures, State.emit,
      Texture.gen_mipmaps, h0]

theorem Texture._upload_body_heap (t : Texture) (o : TextureOptions) (st : State) :
    (Texture._upload_body t o st).2.heap = st.heap := by
  unfold Texture._upload_body
  by_cases h0 : t.id = 0 <;> cases hm : upload_gen_mipmaps o <;>
    simp [Texture.delete_gputex, State.glDeleteTextures, State.glGenTextures, State.emit,
      Texture.gen_mipmaps, h0]

theorem Texture._upload_body_gl_names (t : Texture) (o : TextureOptions) (st : State) :
    (Texture._upload_body t o st).2.gl_names = st.gl_names + 1 := by
  unfold Texture._upload_body
  by_cases h0 : t.id = 0 <;> cases hm : upload_gen_mipmaps o <;>
    simp [Texture.delete_gputex, State.glDeleteTextures, State.glGenTextures, State.emit,
      Texture.gen_mipmaps, h0]

theorem Texture._upload_body_gl_textures (t : Texture) (o : TextureOptions) (st : State) :
    st.gl_names + 1 ∈ (Texture._upload_body t o st).2.gl_textures := by
  unfold Texture._upload_body
  by_cases h0 : t.id = 0 <;> cases hm : upload_gen_mipmaps o <;>
    simp [Texture.delete_gputex, State.glDeleteTextures, State.glGenTextures, State.emit,
      Texture.gen_mipmaps, h0]

theorem Texture._upload_body_log (t : Texture) (o : TextureOptions) (st : State) :
    ∃ l, (Texture._upload_body t o st).2.log = st.log ++ l ∧
      Event.glTexImage2D GL_TEXTURE_2D 0 (upload_internal_format o) t.width
        t.height 0 (gl_format o.format) (gl_type o.type) t.buffer ∈ l := by
  unfold Texture._upload_body
  by_cases h0 : t.id = 0 <;> cases hm : upload_gen_mipmaps o <;>
    simp only [Texture.delete_gputex, State.glDeleteTextures, State.glGenTextures, State.emit,
      Texture.gen_mipmaps, h0, List.append_assoc, ne_eq, not_true_eq_false, not_false_eq_true, if_true, if_false] <;>
    exact ⟨_, rfl, by simp⟩

theorem Texture._upload_eq {st : State} {p : Nat} {t : Texture} (h : st.tex p = some t)
    (o : TextureOptions) :
    Texture._upload p o st =
      (Texture._upload_body t o st).2.setTex p (Texture._upload_body t o st).1 := by
  simp [Texture._upload, h]

theorem Texture._upload_tex_man (p : Nat) (o : TextureOptions) (st : State) :
    (Texture._upload p o st).tex_man = st.tex_man := by
  unfold Texture._upload
  cases h : st.tex p <;> simp [Texture._upload_body_tex_man]

theorem Texture._upload_heap_length (p : Nat) (o : TextureOptions) (st : State) :
    (Texture._upload p o st).heap.length = st.heap.length := by
  unfold Texture._upload
  cases h : st.tex p <;> simp [Texture._upload_body_heap]

theorem Texture._upload_tex_self {st : State} {p : Nat} {t : Texture} (h : st.tex p = some t)
    (o : TextureOptions) :
    (Texture._upload p o st).tex p =
      some { t with id := st.gl_names + 1, buffer := if o.editable then t.buffer else none } := by
  rw [Texture._upload_eq h, State.tex_setTex_self, Texture._upload_body_fst]
  rw [Texture._upload_body_heap]
  exact State.tex_lt h

theorem Texture._upload_tex_of_ne (p q : Nat) (o : TextureOptions) (st : State) (hq : q ≠ p) :
    (Texture._upload p o st).tex q = st.tex q := by
  unfold Texture._upload
  cases h : st.tex p
  · rfl
  · simp only []
    rw [State.tex_setTex_of_ne _ _ _ _ hq]
    simp [State.tex, Texture._upload_body_heap]

theorem Texture._upload_log {st : State} {p : Nat} {t : Texture} (h : st.tex p = some t)
    (o : TextureOptions) :
    ∃ l, (Texture._upload p o st).log = st.log ++ l ∧
      Event.glTexImage2D GL_TEXTURE_2D 0 (upload_internal_format o) t.width
        t.height 0 (gl_format o.format) (gl_type o.type) t.buffer ∈ l := by
  rw [Texture._upload_eq h]
  exact Texture._upload_body_log t o st

theorem Texture._upload_gl_textures {st : State} {p : Nat} {t : Texture}
    (h : st.tex p = some t) (o : TextureOptions) :
    st.gl_names + 1 ∈ (Texture._upload p o st).gl_textures := by
  rw [Texture._upload_eq h]
  exact Texture._upload_body_gl_textures t o st

theorem TextureOptions.operator_eq_iff (a b : TextureOptions) :
    a.operator_eq b = true ↔
      (a.target = b.target ∧ a.wrap_s = b.wrap_s ∧ a.wrap_t = b.wrap_t ∧
        a.min_filter = b.min_filter ∧ a.mag_filter = b.mag_filter ∧
        a.internal_format = b.internal_format ∧ a.format = b.format ∧
        a.type = b.type ∧ a.editable = b.editable) := by
  simp [TextureOptions.operator_eq, and_assoc]

/-! ## The queue is independent of the device calls -/

@[simp] theorem State.setQueue_tex (st : State) (q : List TextureUploadRequest) (p : Nat) :
    (st.setQueue q).tex p = st.tex p := rfl

@[simp] theorem State.setQueue_queue (st : State) (q : List TextureUploadRequest) :
    (st.setQueue q).tex_man.unuploaded_textures = q := rfl

@[simp] theorem State.setQueue_log (st : State) (q : List TextureUploadRequest) :
    (st.setQueue q).log = st.log := rfl

@[simp] theorem State.setQueue_heap (st : State) (q : List TextureUploadRequest) :
    (st.setQueue q).heap = st.heap := rfl

@[simp] theorem State.setQueue_gl_names (st : State) (q : List TextureUploadRequest) :
    (st.setQueue q).gl_names = st.gl_names := rfl

@[simp] theorem State.setQueue_setQueue (st : State) (q q' : List TextureUploadRequest) :
    (st.setQueue q).setQueue q' = st.setQueue q' := rfl

theorem State.setQueue_self (st : State) (q : List TextureUploadRequest)
    (h : st.tex_man.unuploaded_textures = q) : st.setQueue q = st := by
  subst h
  rfl

theorem Texture._upload_body_setQueue (t : Texture) (o : TextureOptions) (st : State)
    (q : List TextureUploadRequest) :
    Texture._upload_body t o (st.setQueue q) =
      ((Texture._upload_body t o st).1, (Texture._upload_body t o st).2.setQueue q) := by
  unfold Texture._upload_body
  by_cases h0 : t.id = 0 <;> cases hm : upload_gen_mipmaps o <;>
    simp [Texture.delete_gputex, State.glDeleteTextures, State.glGenTextures, State.emit,
      Texture.gen_mipmaps, State.setQueue, h0]

theorem Texture._upload_setQueue (p : Nat) (o : TextureOptions) (st : State)
    (q : List TextureUploadRequest) :
    Texture._upload p o (st.setQueue q) = (Texture._upload p o st).setQueue q := by
  unfold Texture._upload
  rw [State.setQueue_tex]
  cases h : st.tex p
  · rfl
  · simp only [Texture._upload_body_setQueue]
    rfl

theorem Texture._upload_surface_body_tex_man (t : Texture) (s : SDL_Surface) (st : State) :
    (Texture._upload_surface_body t s st).2.tex_man = st.tex_man := by
  unfold Texture._upload_surface_body
  split
  · rfl
  · simp only [State.glGenTextures, State.emit, Texture.gen_mipmaps]
    split <;> rfl

theorem Texture._upload_surface_body_heap (t : Texture) (s : SDL_Surface) (st : State) :
    (Texture._upload_surface_body t s st).2.heap = st.heap := by
  unfold Texture._upload_surface_body
  split
  · rfl
  · simp only [State.glGenTextures, State.emit, Texture.gen_mipmaps]
    split <;> rfl

theorem Texture._upload_surface_tex_man (p : Nat) (s : SDL_Surface) (st : State) :
    (Texture._upload_surface p s st).tex_man = st.tex_man := by
  unfold Texture._upload_surface
  cases h : st.tex p <;> simp [Texture._upload_surface_body_tex_man]

theorem TextureManager.perform_request_tex_man (r : TextureUploadRequest) (st : State) :
    (TextureManager.perform_request r st).tex_man = st.tex_man := by
  unfold TextureManager.perform_request
  cases r.surface <;> simp [Texture._upload_tex_man, Texture._upload_surface_tex_man]

theorem TextureManager.upload_of_append (st : State) (q : List TextureUploadRequest)
    (r : TextureUploadRequest) (h : st.tex_man.unuploaded_textures = q ++ [r]) :
    TextureManager.upload st = (TextureManager.perform_request r st).setQueue q := by
  unfold TextureManager.upload
  simp [h, TextureManager.perform_request_tex_man]

theorem Texture.upload_deferred {st : State} {p : Nat} {t : Texture} (h : st.tex p = some t)
    (o : TextureOptions) (hm : t.managed = true) (hi : o.instant_upload = false) :
    Texture.upload p o st =
      st.setQueue (st.tex_man.unuploaded_textures ++ [{ texture := p, options := o }]) := by
  simp [Texture.upload, h, hm, hi]

theorem Texture.upload_immediate {st : State} {p : Nat} {t : Texture} (h : st.tex p = some t)
    (o : TextureOptions) (hc : o.instant_upload = true ∨ t.managed = false) :
    Texture.upload p o st = Texture._upload p o st := by
  rcases hc with hc | hc <;> simp [Texture.upload, h, hc]

/-! ## The path-keyed cache -/

@[simp] theorem State.modifyTex_tex_man (st : State) (p : Nat) (f : Texture → Texture) :
    (st.modifyTex p f).tex_man = st.tex_man := by
  unfold State.modifyTex
  cases st.tex p <;> rfl

@[simp] theorem State.modifyTex_log (st : State) (p : Nat) (f : Texture → Texture) :
    (st.modifyTex p f).log = st.log := by
  unfold State.modifyTex
  cases st.tex p <;> rfl

@[simp] theorem State.modifyTex_gl_names (st : State) (p : Nat) (f : Texture → Texture) :
    (st.modifyTex p f).gl_names = st.gl_names := by
  unfold State.modifyTex
  cases st.tex p <;> rfl

@[simp] theorem State.modifyTex_gl_textures (st : State) (p : Nat) (f : Texture → Texture) :
    (st.modifyTex p f).gl_textures = st.gl_textures := by
  unfold State.modifyTex
  cases st.tex p <;> rfl

@[simp] theorem State.modifyTex_heap_length (st : State) (p : Nat) (f : Texture → Texture) :
    (st.modifyTex p f).heap.length = st.heap.length := by
  unfold State.modifyTex
  cases st.tex p <;> simp

theorem State.modifyTex_tex_self {st : State} {p : Nat} {t : Texture} (h : st.tex p = some t)
    (f : Texture → Texture) : (st.modifyTex p f).tex p = some (f t) := by
  simp only [State.modifyTex, h]
  exact State.tex_setTex_self st p (f t) (State.tex_lt h)

theorem State.modifyTex_tex_of_ne (st : State) (p q : Nat) (f : Texture → Texture)
    (h : q ≠ p) : (st.modifyTex p f).tex q = st.tex q := by
  unfold State.modifyTex
  cases st.tex p
  · rfl
  · exact State.tex_setTex_of_ne st p q _ h

@[simp] theorem State.alloc_fst (st : State) (t : Texture) : (st.alloc t).1 = st.heap.length :=
  rfl

@[simp] theorem State.alloc_tex_man (st : State) (t : Texture) :
    (st.alloc t).2.tex_man = st.tex_man := rfl

@[simp] theorem State.alloc_log (st : State) (t : Texture) : (st.alloc t).2.log = st.log := rfl

@[simp] theorem State.alloc_gl_names (st : State) (t : Texture) :
    (st.alloc t).2.gl_names = st.gl_names := rfl

@[simp] theorem State.alloc_heap_length (st : State) (t : Texture) :
    (st.alloc t).2.heap.length = st.heap.length + 1 := by
  simp [State.alloc]

@[simp] theorem State.emit_tex_man (st : State) (e : Event) : (st.emit e).tex_man = st.tex_man :=
  rfl

@[simp] theorem State.emit_heap (st : State) (e : Event) : (st.emit e).heap = st.heap := rfl

@[simp] theorem State.emit_gl_names (st : State) (e : Event) :
    (st.emit e).gl_names = st.gl_names := rfl

@[simp] theorem State.emit_tex (st : State) (e : Event) (p : Nat) :
    (st.emit e).tex p = st.tex p := rfl

theorem key_eq_congr (e : String × TextureOptions) (path : String) (o₁ o₂ : TextureOptions)
    (h : o₁.operator_eq o₂ = true) : key_eq e (path, o₁) = key_eq e (path, o₂) := by
  have hh : e.2.operator_eq o₁ = e.2.operator_eq o₂ := by
    rw [Bool.eq_iff_iff, TextureOptions.operator_eq_iff, TextureOptions.operator_eq_iff]
    obtain ⟨h1, h2, h3, h4, h5, h6, h7, h8, h9⟩ := (TextureOptions.operator_eq_iff _ _).mp h
    rw [h1, h2, h3, h4, h5, h6, h7, h8, h9]
  simp [key_eq, hh]

theorem find_texture_congr (m : List ((String × TextureOptions) × Nat)) (path : String)
    (o₁ o₂ : TextureOptions) (h : o₁.operator_eq o₂ = true) :
    find_texture m (path, o₁) = find_texture m (path, o₂) := by
  unfold find_texture
  have : (fun e : (String × TextureOptions) × Nat => key_eq e.1 (path, o₁)) =
      (fun e => key_eq e.1 (path, o₂)) := by
    funext e
    exact key_eq_congr e.1 path o₁ o₂ h
  rw [this]

theorem key_eq_refl (k : String × TextureOptions) : key_eq k k = true := by
  simp [key_eq, TextureOptions.operator_eq]

theorem find_texture_assign_of_none (m : List ((String × TextureOptions) × Nat))
    (key : String × TextureOptions) (tex : Nat) (h : find_texture m key = none) :
    assign_texture m key tex = m ++ [(key, tex)] ∧
      find_texture (assign_texture m key tex) key = some tex := by
  have hnone : m.find? (fun e => key_eq e.1 key) = none := by
    simpa [find_texture] using h
  have h1 : assign_texture m key tex = m ++ [(key, tex)] := by
    simp [assign_texture, hnone]
  refine ⟨h1, ?_⟩
  rw [h1]
  simp [find_texture, List.find?_append, hnone, key_eq_refl]

theorem Texture.upload_textures (p : Nat) (o : TextureOptions) (st : State) :
    (Texture.upload p o st).tex_man.textures = st.tex_man.textures := by
  unfold Texture.upload
  cases h : st.tex p
  · rfl
  · simp only []
    split
    · rw [Texture._upload_tex_man]
    · split <;> rfl

theorem TextureManager.load_hit (decode : String → Option BinaryImage) (path : String)
    (o : TextureOptions) (st : State) (tex : Nat)
    (h : find_texture st.tex_man.textures (path, o) = some tex) :
    TextureManager.load decode path o st = (tex, st) := by
  simp [TextureManager.load, h]

/-- On a cache miss `load` returns the address of the new object and appends it to the
map under the requested key. -/
theorem TextureManager.load_miss (decode : String → Option BinaryImage)
    (path : String) (o : TextureOptions) (st : State)
    (h : find_texture st.tex_man.textures (path, o) = none) :
    (TextureManager.load decode path o st).1 = st.heap.length ∧
    (TextureManager.load decode path o st).2.tex_man.textures =
      st.tex_man.textures ++ [((path, o), st.heap.length)] := by
  have key : ∀ t : Texture,
      assign_texture (Texture.upload st.heap.length o
        (((st.emit (Event.BinaryImage_load path)).alloc t).2.modifyTex st.heap.length
          (fun t => { t with managed := true }))).tex_man.textures (path, o) st.heap.length
        = st.tex_man.textures ++ [((path, o), st.heap.length)] := by
    intro t
    rw [Texture.upload_textures]
    simpa using (find_texture_assign_of_none _ _ st.heap.length h).1
  have hf : find_texture (st.tex_man.textures ++ [((path, o), st.heap.length)]) (path, o)
      = some st.heap.length := by
    rw [← (find_texture_assign_of_none _ _ st.heap.length h).1]
    exact (find_texture_assign_of_none _ _ st.heap.length h).2
  simp only [TextureManager.load, h]
  cases hd : decode path <;> simp only [State.alloc_fst, State.emit_heap, key, hf] <;> simp

/-! ## Effect of `_upload(surface)` -/

theorem Texture._upload_surface_body_of_zero (t : Texture) (s : SDL_Surface) (st : State)
    (h : s.w = 0 ∨ s.h = 0) : Texture._upload_surface_body t s st = (t, st) := by
  simp [Texture._upload_surface_body, h]

theorem Texture._upload_surface_body_fst (t : Texture) (s : SDL_Surface) (st : State)
    (hw : s.w ≠ 0) (hh : s.h ≠ 0) :
    (Texture._upload_surface_body t s st).1 =
      { t with buffer := none, width := size_t_of_int s.w, height := size_t_of_int s.h,
               id := st.gl_names + 1 } := by
  unfold Texture._upload_surface_body
  rw [if_neg (by simp [hw, hh])]
  simp only [State.glGenTextures, State.emit, Texture.gen_mipmaps]
  split <;> rfl

theorem Texture._upload_surface_body_setQueue (t : Texture) (s : SDL_Surface) (st : State)
    (q : List TextureUploadRequest) :
    Texture._upload_surface_body t s (st.setQueue q) =
      ((Texture._upload_surface_body t s st).1,
        (Texture._upload_surface_body t s st).2.setQueue q) := by
  unfold Texture._upload_surface_body
  split
  · rfl
  · simp only [State.glGenTextures, State.emit, Texture.gen_mipmaps, State.setQueue]
    split <;> rfl

theorem Texture._upload_surface_setQueue (p : Nat) (s : SDL_Surface) (st : State)
    (q : List TextureUploadRequest) :
    Texture._upload_surface p s (st.setQueue q) = (Texture._upload_surface p s st).setQueue q := by
  unfold Texture._upload_surface
  rw [State.setQueue_tex]
  cases h : st.tex p
  · rfl
  · simp only [Texture._upload_surface_body_setQueue]
    rfl

theorem Texture._upload_surface_tex_self {st : State} {p : Nat} {t : Texture}
    (h : st.tex p = some t) (s : SDL_Surface) (hw : s.w ≠ 0) (hh : s.h ≠ 0) :
    (Texture._upload_surface p s st).tex p =
      some { t with buffer := none, width := size_t_of_int s.w, height := size_t_of_int s.h,
                    id := st.gl_names + 1 } := by
  simp only [Texture._upload_surface, h]
  rw [State.tex_setTex_self, Texture._upload_surface_body_fst t s st hw hh]
  rw [Texture._upload_surface_body_heap]
  exact State.tex_lt h

theorem State.setTex_same {st : State} {p : Nat} {t : Texture} (h : st.tex p = some t) :
    st.setTex p t = st := by
  unfold State.setTex
  have hset : st.heap.set p (some t) = st.heap := by
    apply List.ext_getElem?
    intro i
    by_cases hi : i = p
    · subst hi
      rw [List.getElem?_set_self (State.tex_lt h)]
      simp only [State.tex, List.get?_eq_getElem?] at h
      cases hg : st.heap[i]? with
      | none => rw [hg] at h; simp at h
      | some v => rw [hg] at h; simp at h; rw [h]
    · rw [List.getElem?_set_ne (Ne.symm hi)]
  rw [hset]

theorem Texture._upload_surface_of_zero (p : Nat) (s : SDL_Surface) (st : State)
    (hz : s.w = 0 ∨ s.h = 0) : Texture._upload_surface p s st = st := by
  unfold Texture._upload_surface
  cases h : st.tex p with
  | none => rfl
  | some t =>
    simp only [Texture._upload_surface_body_of_zero _ s st hz]
    exact State.setTex_same h

theorem TextureManager.perform_request_setQueue (r : TextureUploadRequest) (st : State)
    (q : List TextureUploadRequest) :
    TextureManager.perform_request r (st.setQueue q) =
      (TextureManager.perform_request r st).setQueue q := by
  unfold TextureManager.perform_request
  cases r.surface <;> simp [Texture._upload_setQueue, Texture._upload_surface_setQueue]

theorem Texture.upload_surface_deferred {st : State} {p : Nat} {t : Texture}
    (h : st.tex p = some t) (s : SDL_Surface) (hm : t.managed = true) :
    Texture.upload_surface p s st =
      st.setQueue (st.tex_man.unuploaded_textures ++ [{ texture := p, surface := some s }]) := by
  simp [Texture.upload_surface, h, hm]

/-! ## The text-keyed cache and the white texture -/

theorem find_text_assign_of_none (m : List (String × Nat)) (msg : String) (tex : Nat)
    (h : find_text m msg = none) :
    assign_text m msg tex = m ++ [(msg, tex)] ∧
      find_text (assign_text m msg tex) msg = some tex := by
  have hnone : m.find? (fun e => e.1 == msg) = none := by
    simpa [find_text] using h
  have h1 : assign_text m msg tex = m ++ [(msg, tex)] := by
    simp [assign_text, hnone]
  refine ⟨h1, ?_⟩
  rw [h1]
  simp [find_text, List.find?_append, hnone]

theorem Texture.upload_surface_tex_man_fields (p : Nat) (s : SDL_Surface) (st : State) :
    (Texture.upload_surface p s st).tex_man.textures = st.tex_man.textures ∧
    (Texture.upload_surface p s st).tex_man.text_textures = st.tex_man.text_textures ∧
    (Texture.upload_surface p s st).tex_man.white = st.tex_man.white := by
  unfold Texture.upload_surface
  cases h : st.tex p
  · exact ⟨rfl, rfl, rfl⟩
  · simp only []
    split
    · rw [Texture._upload_surface_tex_man]
      exact ⟨rfl, rfl, rfl⟩
    · split <;> exact ⟨rfl, rfl, rfl⟩

theorem Texture.upload_tex_man_fields (p : Nat) (o : TextureOptions) (st : State) :
    (Texture.upload p o st).tex_man.textures = st.tex_man.textures ∧
    (Texture.upload p o st).tex_man.text_textures = st.tex_man.text_textures ∧
    (Texture.upload p o st).tex_man.white = st.tex_man.white := by
  unfold Texture.upload
  cases h : st.tex p
  · exact ⟨rfl, rfl, rfl⟩
  · simp only []
    split
    · rw [Texture._upload_tex_man]
      exact ⟨rfl, rfl, rfl⟩
    · split <;> exact ⟨rfl, rfl, rfl⟩

theorem TextureManager.get_white_of_some (st : State) (p : Nat)
    (h : st.tex_man.white = some p) : TextureManager.get_white st = (p, st) := by
  simp [TextureManager.get_white, h]

theorem TextureManager.get_white_white (st : State) :
    (TextureManager.get_white st).2.tex_man.white = some (TextureManager.get_white st).1 := by
  cases h : st.tex_man.white with
  | some p => rw [TextureManager.get_white_of_some st p h]; exact h
  | none =>
    simp only [TextureManager.get_white, h]
    rw [(Texture.upload_tex_man_fields _ _ _).2.2]
    simp

theorem TextureManager.gen_text_empty (ttf : Nat → Color → String → Option SDL_Surface)
    (font : Nat) (color : Color) (st : State) :
    TextureManager.gen_text ttf font color "" st =
      (Except.ok (TextureManager.get_white st).1, (TextureManager.get_white st).2) := by
  simp [TextureManager.gen_text]

theorem TextureManager.gen_text_hit (ttf : Nat → Color → String → Option SDL_Surface)
    (font : Nat) (color : Color) (msg : String) (st : State) (tex : Nat) (hne : msg ≠ "")
    (h : find_text st.tex_man.text_textures msg = some tex) :
    TextureManager.gen_text ttf font color msg st = (Except.ok tex, st) := by
  simp [TextureManager.gen_text, hne, h]

theorem TextureManager.gen_text_miss_error (ttf : Nat → Color → String → Option SDL_Surface)
    (font : Nat) (color : Color) (msg : String) (st : State) (hne : msg ≠ "")
    (h : find_text st.tex_man.text_textures msg = none) (hr : ttf font color msg = none) :
    (TextureManager.gen_text ttf font color msg st).1 =
      Except.error "Cannot create text surface" := by
  simp [TextureManager.gen_text, hne, h, hr]

theorem TextureManager.gen_text_miss_ok (ttf : Nat → Color → String → Option SDL_Surface)
    (font : Nat) (color : Color) (msg : String) (st : State) (s : SDL_Surface) (hne : msg ≠ "")
    (h : find_text st.tex_man.text_textures msg = none) (hr : ttf font color msg = some s) :
    (TextureManager.gen_text ttf font color msg st).1 = Except.ok st.heap.length ∧
    (TextureManager.gen_text ttf font color msg st).2.tex_man.text_textures =
      st.tex_man.text_textures ++ [(msg, st.heap.length)] := by
  have key : assign_text (Texture.upload_surface st.heap.length s
      (((((st.alloc Texture.new).2.emit (Event.TTF_RenderUTF8_Blended font color msg)).modifyTex
        st.heap.length (fun t => { t with managed := true })).modifyTex st.heap.length
          (fun t => { t with width := size_t_of_int s.w })).modifyTex st.heap.length
            (fun t => { t with height := size_t_of_int s.h }))).tex_man.text_textures
      msg st.heap.length = st.tex_man.text_textures ++ [(msg, st.heap.length)] := by
    rw [(Texture.upload_surface_tex_man_fields _ _ _).2.1]
    simpa using (find_text_assign_of_none _ _ st.heap.length h).1
  have hf : find_text (st.tex_man.text_textures ++ [(msg, st.heap.length)]) msg
      = some st.heap.length := by
    rw [← (find_text_assign_of_none _ _ st.heap.length h).1]
    exact (find_text_assign_of_none _ _ st.heap.length h).2
  simp only [TextureManager.gen_text, hne, if_false, h, hr, State.alloc_fst, key, hf]
  simp

/-! ## What `load` does on a cache miss -/

/-- On a cache miss `load` constructs `t₀` (the decoded image, or the dummy when decoding
fails) at a new address, and apart from the path-keyed map its final state is the state
after `upload(options)` on that object with `managed` set. -/
theorem TextureManager.load_miss_state (decode : String → Option BinaryImage)
    (path : String) (o : TextureOptions) (st : State)
    (h : find_texture st.tex_man.textures (path, o) = none) :
    ∃ t₀ : Texture,
      t₀ = (match decode path with
        | some img => Texture.of_image img
        | none => Texture.create_dummy Texture.new) ∧
      (TextureManager.load decode path o st).1 = st.heap.length ∧
      (∀ p, (TextureManager.load decode path o st).2.tex p =
        (Texture.upload st.heap.length o
          (((st.emit (Event.BinaryImage_load path)).alloc t₀).2.modifyTex st.heap.length
            (fun t => { t with managed := true }))).tex p) ∧
      (TextureManager.load decode path o st).2.tex_man.unuploaded_textures =
        (Texture.upload st.heap.length o
          (((st.emit (Event.BinaryImage_load path)).alloc t₀).2.modifyTex st.heap.length
            (fun t => { t with managed := true }))).tex_man.unuploaded_textures ∧
      (TextureManager.load decode path o st).2.gl_textures =
        (Texture.upload st.heap.length o
          (((st.emit (Event.BinaryImage_load path)).alloc t₀).2.modifyTex st.heap.length
            (fun t => { t with managed := true }))).gl_textures ∧
      (TextureManager.load decode path o st).2.log =
        (Texture.upload st.heap.length o
          (((st.emit (Event.BinaryImage_load path)).alloc t₀).2.modifyTex st.heap.length
            (fun t => { t with managed := true }))).log := by
  refine ⟨_, rfl, (TextureManager.load_miss decode path o st h).1, ?_, ?_, ?_, ?_⟩ <;>
    simp only [TextureManager.load, h] <;> cases hd : decode path <;> first | rfl | (intro p; rfl)

/-- The texture created by `load` on a cache miss, as it is when `load` returns. -/
theorem TextureManager.load_miss_tex (decode : String → Option BinaryImage)
    (path : String) (o : TextureOptions) (st : State)
    (h : find_texture st.tex_man.textures (path, o) = none) :
    ∃ t₀ : Texture,
      t₀ = (match decode path with
        | some img => Texture.of_image img
        | none => Texture.create_dummy Texture.new) ∧
      (o.instant_upload = false →
        (TextureManager.load decode path o st).2.tex (TextureManager.load decode path o st).1 =
          some { t₀ with managed := true } ∧
        (TextureManager.load decode path o st).2.tex_man.unuploaded_textures =
          st.tex_man.unuploaded_textures ++ [{ texture := st.heap.length, options := o }]) ∧
      (o.instant_upload = true →
        (TextureManager.load decode path o st).2.tex (TextureManager.load decode path o st).1 =
          some { t₀ with managed := true, id := st.gl_names + 1,
                         buffer := if o.editable then t₀.buffer else none } ∧
        (TextureManager.load decode path o st).2.tex_man.unuploaded_textures =
          st.tex_man.unuploaded_textures ∧
        st.gl_names + 1 ∈ (TextureManager.load decode path o st).2.gl_textures ∧
        ∃ l, (TextureManager.load decode path o st).2.log =
            st.log ++ Event.BinaryImage_load path :: l ∧
          Event.glTexImage2D GL_TEXTURE_2D 0 (upload_internal_format o) t₀.width t₀.height 0
            (gl_format o.format) (gl_type o.type) t₀.buffer ∈ l) := by
  obtain ⟨t₀, ht₀, h1, h2, h3, h4, h5⟩ := TextureManager.load_miss_state decode path o st h
  refine ⟨t₀, ht₀, ?_, ?_⟩
  all_goals
    have hT : (((st.emit (Event.BinaryImage_load path)).alloc t₀).2.modifyTex st.heap.length
        (fun t => { t with managed := true })).tex st.heap.length =
        some { t₀ with managed := true } :=
      State.modifyTex_tex_self (State.tex_alloc (st.emit (Event.BinaryImage_load path)) t₀) _
  · intro hi
    rw [h1, h2, h3, Texture.upload_deferred hT o rfl hi]
    exact ⟨hT, by simp⟩
  · intro hi
    rw [h1, h2, h3, h4, h5, Texture.upload_immediate hT o (Or.inl hi)]
    refine ⟨?_, ?_, ?_, ?_⟩
    · rw [Texture._upload_tex_self hT o]
      simp
    · rw [Texture._upload_tex_man]
      simp
    · simpa using Texture._upload_gl_textures hT o
    · obtain ⟨l, hl, hmem⟩ := Texture._upload_log hT o
      refine ⟨l, ?_, hmem⟩
      rw [hl]
      simp [State.emit]

/-! ## Cached entries survive every client call -/

theorem CachesKept.refl (st : State) : CachesKept st st :=
  ⟨fun _ _ h => h, fun _ _ h => h, fun _ h => h⟩

theorem CachesKept.trans {a b c : State} (h₁ : CachesKept a b) (h₂ : CachesKept b c) :
    CachesKept a c :=
  ⟨fun k t h => h₂.1 k t (h₁.1 k t h), fun m t h => h₂.2.1 m t (h₁.2.1 m t h),
    fun p h => h₂.2.2 p (h₁.2.2 p h)⟩

theorem CachesKept.of_fields {st st' : State}
    (h₁ : st'.tex_man.textures = st.tex_man.textures)
    (h₂ : st'.tex_man.text_textures = st.tex_man.text_textures)
    (h₃ : st'.tex_man.white = st.tex_man.white) : CachesKept st st' := by
  refine ⟨?_, ?_, ?_⟩
  · intro k t h; rw [h₁]; exact h
  · intro m t h; rw [h₂]; exact h
  · intro p h; rw [h₃]; exact h

theorem Texture.upload_cachesKept (p : Nat) (o : TextureOptions) (st : State) :
    CachesKept st (Texture.upload p o st) :=
  CachesKept.of_fields (Texture.upload_tex_man_fields p o st).1
    (Texture.upload_tex_man_fields p o st).2.1 (Texture.upload_tex_man_fields p o st).2.2

theorem Texture.upload_surface_cachesKept (p : Nat) (s : SDL_Surface) (st : State) :
    CachesKept st (Texture.upload_surface p s st) :=
  CachesKept.of_fields (Texture.upload_surface_tex_man_fields p s st).1
    (Texture.upload_surface_tex_man_fields p s st).2.1
    (Texture.upload_surface_tex_man_fields p s st).2.2

theorem TextureManager.drain_cachesKept (st : State) :
    CachesKept st (TextureManager.upload st) := by
  unfold TextureManager.upload
  cases h : st.tex_man.unuploaded_textures.getLast? with
  | none => exact CachesKept.refl st
  | some r =>
    apply CachesKept.of_fields <;>
      simp [State.setQueue, TextureManager.perform_request_tex_man]

theorem TextureManager.get_white_cachesKept (st : State) :
    CachesKept st (TextureManager.get_white st).2 := by
  cases h : st.tex_man.white with
  | some p => rw [TextureManager.get_white_of_some st p h]; exact CachesKept.refl st
  | none =>
    refine ⟨?_, ?_, ?_⟩
    · intro k t hk
      simp only [TextureManager.get_white, h]
      rw [(Texture.upload_tex_man_fields _ _ _).1]
      simpa using hk
    · intro m t hm
      simp only [TextureManager.get_white, h]
      rw [(Texture.upload_tex_man_fields _ _ _).2.1]
      simpa using hm
    · intro p hp
      rw [h] at hp
      cases hp

theorem find_texture_append_of_some (m : List ((String × TextureOptions) × Nat))
    (e : (String × TextureOptions) × Nat) (key : String × TextureOptions) (tex : Nat)
    (h : find_texture m key = some tex) : find_texture (m ++ [e]) key = some tex := by
  unfold find_texture at h ⊢
  rw [List.find?_append]
  cases hf : m.find? (fun e => key_eq e.1 key) with
  | none => rw [hf] at h; simp at h
  | some v => rw [hf] at h; simpa using h

theorem find_text_append_of_some (m : List (String × Nat)) (e : String × Nat) (msg : String)
    (tex : Nat) (h : find_text m msg = some tex) : find_text (m ++ [e]) msg = some tex := by
  unfold find_text at h ⊢
  rw [List.find?_append]
  cases hf : m.find? (fun e => e.1 == msg) with
  | none => rw [hf] at h; simp at h
  | some v => rw [hf] at h; simpa using h

theorem TextureManager.load_cachesKept (decode : String → Option BinaryImage) (path : String)
    (o : TextureOptions) (st : State) :
    CachesKept st (TextureManager.load decode path o st).2 := by
  cases hf : find_texture st.tex_man.textures (path, o) with
  | some tex => rw [TextureManager.load_hit decode path o st tex hf]; exact CachesKept.refl st
  | none =>
    refine ⟨?_, ?_, ?_⟩
    · intro k t hk
      rw [(TextureManager.load_miss decode path o st hf).2]
      exact find_texture_append_of_some _ _ k t hk
    · intro m t hm
      simp only [TextureManager.load, hf]
      cases hd : decode path <;> simp only [] <;>
        rw [(Texture.upload_tex_man_fields _ _ _).2.1] <;> simpa using hm
    · intro p hp
      simp only [TextureManager.load, hf]
      cases hd : decode path <;> simp only [] <;>
        rw [(Texture.upload_tex_man_fields _ _ _).2.2] <;> simpa using hp

theorem Texture.destroy_tex_man_fields (p : Nat) (st : State) :
    (Texture.destroy p st).tex_man.textures = st.tex_man.textures ∧
    (Texture.destroy p st).tex_man.text_textures = st.tex_man.text_textures ∧
    (Texture.destroy p st).tex_man.white = st.tex_man.white := by
  unfold Texture.destroy
  cases h : st.tex p with
  | none => exact ⟨rfl, rfl, rfl⟩
  | some t =>
    by_cases h0 : t.id = 0 <;> cases hm : t.managed <;>
      simp [h0, hm, Texture.delete_gputex, State.glDeleteTextures, State.emit, State.setQueue]

theorem TextureManager.gen_text_cachesKept
    (ttf : Nat → Color → String → Option SDL_Surface) (font : Nat) (color : Color)
    (msg : String) (st : State) :
    CachesKept st (TextureManager.gen_text ttf font color msg st).2 := by
  by_cases hne : msg = ""
  · subst hne
    rw [TextureManager.gen_text_empty]
    exact TextureManager.get_white_cachesKept st
  · cases hf : find_text st.tex_man.text_textures msg with
    | some tex =>
      rw [TextureManager.gen_text_hit ttf font color msg st tex hne hf]
      exact CachesKept.refl st
    | none =>
      cases hr : ttf font color msg with
      | none =>
        apply CachesKept.of_fields <;>
          simp only [TextureManager.gen_text, hne, if_false, hf, hr]
        · rw [(Texture.destroy_tex_man_fields _ _).1]; simp
        · rw [(Texture.destroy_tex_man_fields _ _).2.1]; simp
        · rw [(Texture.destroy_tex_man_fields _ _).2.2]; simp
      | some s =>
        refine ⟨?_, ?_, ?_⟩
        · intro k t hk
          simp only [TextureManager.gen_text, hne, if_false, hf, hr]
          rw [(Texture.upload_surface_tex_man_fields _ _ _).1]
          simpa using hk
        · intro m t hm
          rw [(TextureManager.gen_text_miss_ok ttf font color msg st s hne hf hr).2]
          exact find_text_append_of_some _ _ m t hm
        · intro p hp
          simp only [TextureManager.gen_text, hne, if_false, hf, hr]
          rw [(Texture.upload_surface_tex_man_fields _ _ _).2.2]
          simpa using hp

theorem Call.run_cachesKept (decode : String → Option BinaryImage)
    (ttf : Nat → Color → String → Option SDL_Surface) (c : Call) (st : State) :
    CachesKept st (c.run decode ttf st) := by
  cases c with
  | load path o => exact TextureManager.load_cachesKept decode path o st
  | gen_text f col m => exact TextureManager.gen_text_cachesKept ttf f col m st
  | get_white => exact TextureManager.get_white_cachesKept st
  | drain => exact TextureManager.drain_cachesKept st
  | upload p o => exact Texture.upload_cachesKept p o st
  | upload_surface p s => exact Texture.upload_surface_cachesKept p s st

theorem run_calls_cachesKept (decode : String → Option BinaryImage)
    (ttf : Nat → Color → String → Option SDL_Surface) (cs : List Call) (st : State) :
    CachesKept st (run_calls decode ttf cs st) := by
  induction cs generalizing st with
  | nil => exact CachesKept.refl st
  | cons c cs ih =>
    exact (Call.run_cachesKept decode ttf c st).trans (ih (c.run decode ttf st))

/-! ## What the destructor does to the queue -/

theorem Texture.destroy_queue {st : State} {p : Nat} {t : Texture} (h : st.tex p = some t)
    (hm : t.managed = true) :
    (Texture.destroy p st).tex_man.unuploaded_textures =
      st.tex_man.unuploaded_textures.eraseP (fun e => e.texture == p) := by
  unfold Texture.destroy
  by_cases h0 : t.id = 0 <;>
    simp [h, h0, hm, Texture.delete_gputex, State.glDeleteTextures, State.emit, State.setQueue]

theorem eraseP_filter_others (q : List TextureUploadRequest) (p : Nat) :
    (q.eraseP (fun e => e.texture == p)).filter (fun e => e.texture != p) =
      q.filter (fun e => e.texture != p) := by
  induction q with
  | nil => rfl
  | cons r q ih =>
    by_cases hr : r.texture = p
    · simp [List.eraseP_cons, hr]
    · simp [List.eraseP_cons, hr, ih]

theorem eraseP_count_target (q : List TextureUploadRequest) (p : Nat) :
    (q.eraseP (fun e => e.texture == p)).countP (fun e => e.texture == p) =
      q.countP (fun e => e.texture == p) - 1 := by
  induction q with
  | nil => rfl
  | cons r q ih =>
    by_cases hr : r.texture = p
    · simp [List.eraseP_cons, hr]
    · simp [List.eraseP_cons, hr, ih]

/-- The destructor of a live managed texture keeps the requests for other textures, in
order, and removes one request for the texture itself if there is any; so a request for
it remains exactly when two or more were pending. -/
theorem Texture.destroy_queue_spec {st : State} {p : Nat} {t : Texture}
    (h : st.tex p = some t) (hm : t.managed = true) :
    (Texture.destroy p st).tex_man.unuploaded_textures.filter (fun e => e.texture != p) =
      st.tex_man.unuploaded_textures.filter (fun e => e.texture != p) ∧
    (Texture.destroy p st).tex_man.unuploaded_textures.countP (fun e => e.texture == p) =
      st.tex_man.unuploaded_textures.countP (fun e => e.texture == p) - 1 := by
  rw [Texture.destroy_queue h hm]
  exact ⟨eraseP_filter_others _ p, eraseP_count_target _ p⟩

/-! ## `fast_erase_all` -/

theorem get?_append_cons_length {α : Type} (a : List α) (y : α) (l : List α) :
    (a ++ y :: l).get? a.length = some y := by
  rw [List.get?_eq_getElem?, List.getElem?_append_right (le_refl _)]
  simp

theorem fast_erase_all_loop_step_eq {α : Type} [DecidableEq α] (v : α) (a b : List α) (x : α) :
    fast_erase_all_loop (a.length + 1) (a ++ [v] ++ (b ++ [x])) v =
      fast_erase_all_loop a.length (a ++ x :: b) v := by
  have hidx : (a ++ [v] ++ (b ++ [x])).get? a.length = some v := by
    rw [List.append_assoc]
    exact get?_append_cons_length a v _
  have hlast : (a ++ [v] ++ (b ++ [x])).getLast? = some x := by
    simp [← List.append_assoc]
  have hset : ((a ++ [v] ++ (b ++ [x])).set a.length x).dropLast = a ++ x :: b := by
    have : (a ++ [v] ++ (b ++ [x])).set a.length x = (a ++ x :: b) ++ [x] := by
      simp [List.set_append]
    rw [this, List.dropLast_concat]
  rw [fast_erase_all_loop, if_pos hidx, hlast]
  simp only [hset]

theorem fast_erase_all_loop_step_last {α : Type} [DecidableEq α] (v : α) (a : List α) :
    fast_erase_all_loop (a.length + 1) (a ++ [v]) v = fast_erase_all_loop a.length a v := by
  have hidx : (a ++ [v]).get? a.length = some v := get?_append_cons_length a v []
  have hlast : (a ++ [v]).getLast? = some v := by simp
  have hset : ((a ++ [v]).set a.length v).dropLast = a := by
    have : (a ++ [v]).set a.length v = a ++ [v] := by simp [List.set_append]
    rw [this, List.dropLast_concat]
  rw [fast_erase_all_loop, if_pos hidx, hlast]
  simp only [hset]

theorem fast_erase_all_loop_step_ne {α : Type} [DecidableEq α] (v y : α) (a b : List α)
    (hy : y ≠ v) :
    fast_erase_all_loop (a.length + 1) (a ++ [y] ++ b) v =
      fast_erase_all_loop a.length (a ++ y :: b) v := by
  have hidx : ¬ ((a ++ [y] ++ b).get? a.length = some v) := by
    rw [List.append_assoc]
    have := get?_append_cons_length a y b
    simp only [List.singleton_append]
    rw [this]
    simpa using hy
  rw [fast_erase_all_loop, if_neg hidx]
  simp

theorem fast_erase_all_loop_spec {α : Type} [DecidableEq α] (v : α) (n : Nat) :
    ∀ (a b : List α), a.length = n → v ∉ b →
      (fast_erase_all_loop a.length (a ++ b) v).Perm (a.filter (fun x => x != v) ++ b) := by
  induction n with
  | zero =>
    intro a b ha _
    have : a = [] := List.length_eq_zero.mp ha
    subst this
    simp [fast_erase_all_loop]
  | succ n ih =>
    intro a b ha hb
    rcases List.eq_nil_or_concat a with h | ⟨a', y, h⟩
    · subst h; simp at ha
    · rw [List.concat_eq_append] at h
      subst h
      have hlen : a'.length = n := by simpa using ha
      rw [List.length_append, List.length_singleton]
      by_cases hy : y = v
      · subst hy
        rcases List.eq_nil_or_concat b with hb0 | ⟨b', x, hb1⟩
        · subst hb0
          rw [List.append_nil, fast_erase_all_loop_step_last]
          have := ih a' [] hlen (by simp)
          simpa using this
        · rw [List.concat_eq_append] at hb1
          subst hb1
          rw [fast_erase_all_loop_step_eq]
          have hx : y ∉ x :: b' := by
            intro hmem
            apply hb
            simp only [List.mem_cons, List.mem_append, List.mem_singleton] at hmem ⊢
            tauto
          refine (ih a' (x :: b') hlen hx).trans ?_
          simp only [List.filter_append, List.filter_cons, List.filter_nil, bne_self_eq_false,
            Bool.false_eq_true, if_false, List.append_nil]
          exact List.Perm.append_left _ (List.perm_append_singleton x b').symm
      · rw [fast_erase_all_loop_step_ne v y a' b hy]
        have hyb : v ∉ y :: b := by
          intro hmem
          rcases List.mem_cons.mp hmem with h | h
          · exact hy h.symm
          · exact hb h
        refine (ih a' (y :: b) hlen hyb).trans ?_
        simp [List.filter_append, hy]

theorem fast_erase_all_perm {α : Type} [DecidableEq α] (c : List α) (v : α) :
    (fast_erase_all c v).Perm (c.filter (fun x => x != v)) := by
  have := fast_erase_all_loop_spec v c.length c [] rfl (by simp)
  simpa [fast_erase_all] using this

theorem fast_erase_all_loop_of_not_mem {α : Type} [DecidableEq α] (v : α) (c : List α)
    (h : v ∉ c) : ∀ n, fast_erase_all_loop n c v = c := by
  intro n
  induction n with
  | zero => rfl
  | succ n ih =>
    have hne : ¬ (c.get? n = some v) := by
      intro hc
      exact h (List.get?_mem hc)
    rw [fast_erase_all_loop, if_neg hne, ih]

/-! ## The tile loops of `TextureArray::upload` -/

theorem flatMap_range_map_range {β : Type} (m : Nat) (f : Nat → β) (n : Nat) :
    (List.range n).flatMap (fun x => (List.range m).map (fun y => f (x * m + y))) =
      (List.range (n * m)).map f := by
  induction n with
  | zero => simp
  | succ n ih =>
    rw [List.range_succ, List.flatMap_append, ih, Nat.succ_mul, List.range_add, List.map_append]
    simp [Function.comp_def]

theorem TextureArray.tile_uploads_square (a : TextureArray) (n : Nat) (hn : 0 < n)
    (hx : a.tiles_x = n) (hy : a.tiles_y = n) :
    TextureArray.tile_uploads a =
      (List.range (n * n)).map (fun k =>
        Event.glTexSubImage3D GL_TEXTURE_2D_ARRAY 0 0 0 (k : Nat) (a.width / n : Nat)
          (a.height / n : Nat) 1 GL_RGBA GL_UNSIGNED_BYTE
          ((k / n) * (a.height / n) * a.width + (k % n) * (a.width / n))) := by
  unfold TextureArray.tile_uploads
  simp only [hx, hy]
  rw [← flatMap_range_map_range n (fun k =>
    Event.glTexSubImage3D GL_TEXTURE_2D_ARRAY 0 0 0 (k : Nat) (a.width / n : Nat)
      (a.height / n : Nat) 1 GL_RGBA GL_UNSIGNED_BYTE
      ((k / n) * (a.height / n) * a.width + (k % n) * (a.width / n))) n]
  apply List.flatMap_congr
  intro x _
  apply List.map_congr_left
  intro y hy'
  have hyn : y < n := List.mem_range.mp hy'
  have h1 : (x * n + y) / n = x := by
    rw [Nat.add_comm, Nat.add_mul_div_right _ _ hn, Nat.div_eq_of_lt hyn, Nat.zero_add]
  have h2 : (x * n + y) % n = y := by
    rw [Nat.add_comm, Nat.add_mul_mod_self_right, Nat.mod_eq_of_lt hyn]
  rw [h1, h2]

theorem tile_region_inside_buffer (width height n r c j i : Nat)
    (hw : n ∣ width) (hh : n ∣ height) (hr : r < n) (hc : c < n)
    (hj : j < height / n) (hi : i < width / n) :
    r * (height / n) * width + c * (width / n) + j * width + i < width * height := by
  obtain ⟨pw, rfl⟩ := hw
  obtain ⟨ph, rfl⟩ := hh
  have hn : 0 < n := Nat.lt_of_le_of_lt (Nat.zero_le _) hr
  rw [Nat.mul_div_cancel_left _ hn] at hj hi ⊢
  rw [Nat.mul_div_cancel_left _ hn]
  -- row index r * ph + j < n * ph, column index c * pw + i < n * pw
  have hrow : r * ph + j + 1 ≤ n * ph := by
    have : (r + 1) * ph ≤ n * ph := Nat.mul_le_mul_right _ hr
    nlinarith
  have hcol : c * pw + i < n * pw := by
    have : (c + 1) * pw ≤ n * pw := Nat.mul_le_mul_right _ hc
    nlinarith
  have : (r * ph + j) * (n * pw) + (c * pw + i) < (n * pw) * (n * ph) := by
    calc (r * ph + j) * (n * pw) + (c * pw + i)
        < (r * ph + j) * (n * pw) + n * pw := Nat.add_lt_add_left hcol _
      _ = (r * ph + j + 1) * (n * pw) := by ring
      _ ≤ (n * ph) * (n * pw) := Nat.mul_le_mul_right _ hrow
      _ = (n * pw) * (n * ph) := by ring
  calc r * ph * (n * pw) + c * pw + j * (n * pw) + i
      = (r * ph + j) * (n * pw) + (c * pw + i) := by ring
    _ < (n * pw) * (n * ph) := this

theorem TextureArray.upload_log (a : TextureArray) (st : State) :
    (TextureArray.upload a st).2.log =
      st.log ++ [Event.glGenTextures (st.gl_names + 1),
        Event.glBindTexture GL_TEXTURE_2D_ARRAY (st.gl_names + 1),
        Event.glTexParameteri GL_TEXTURE_2D_ARRAY GL_TEXTURE_MIN_FILTER GL_LINEAR,
        Event.glTexParameteri GL_TEXTURE_2D_ARRAY GL_TEXTURE_MAG_FILTER GL_LINEAR,
        Event.glTexParameteri GL_TEXTURE_2D_ARRAY GL_TEXTURE_WRAP_S GL_REPEAT,
        Event.glTexParameteri GL_TEXTURE_2D_ARRAY GL_TEXTURE_WRAP_T GL_REPEAT,
        Event.glTexImage3D GL_TEXTURE_2D_ARRAY 0 GL_RGBA (a.width / a.tiles_x : Nat)
          (a.height / a.tiles_y : Nat) 16 0 GL_RGBA GL_UNSIGNED_BYTE none,
        Event.glPixelStorei GL_UNPACK_ROW_LENGTH a.width,
        Event.glPixelStorei GL_UNPACK_IMAGE_HEIGHT a.height] ++
      TextureArray.tile_uploads a ++
      [Event.glBindTexture GL_TEXTURE_2D_ARRAY 0,
        Event.glPixelStorei GL_UNPACK_ROW_LENGTH 0,
        Event.glPixelStorei GL_UNPACK_IMAGE_HEIGHT 0] := by
  simp [TextureArray.upload, State.glGenTextures, State.emit, TextureArray.tile_uploads]

/-! ## The device calls of `_upload(options)`, in order -/

theorem Texture._upload_body_log_exact (t : Texture) (o : TextureOptions) (st : State) :
    (Texture._upload_body t o st).2.log =
      st.log ++ (if t.id ≠ 0 then [Event.glDeleteTextures t.id] else []) ++
        [Event.glGenTextures (st.gl_names + 1),
          Event.glBindTexture GL_TEXTURE_2D (st.gl_names + 1),
          Event.glTexImage2D GL_TEXTURE_2D 0 (upload_internal_format o) t.width t.height 0
            (gl_format o.format) (gl_type o.type) t.buffer,
          Event.glTexParameteri GL_TEXTURE_2D GL_TEXTURE_WRAP_S (gl_wrap o.wrap_s),
          Event.glTexParameteri GL_TEXTURE_2D GL_TEXTURE_WRAP_T (gl_wrap o.wrap_t),
          Event.glTexParameteri GL_TEXTURE_2D GL_TEXTURE_MIN_FILTER (gl_filter o.min_filter),
          Event.glTexParameteri GL_TEXTURE_2D GL_TEXTURE_MAG_FILTER (gl_filter o.mag_filter)] ++
        (if upload_gen_mipmaps o then
          [Event.glBindTexture GL_TEXTURE_2D (st.gl_names + 1),
            Event.glGenerateMipmap GL_TEXTURE_2D]
        else []) := by
  unfold Texture._upload_body
  by_cases h0 : t.id = 0 <;> cases hm : upload_gen_mipmaps o <;> cases he : o.editable <;>
    simp [Texture.delete_gputex, State.glDeleteTextures, State.glGenTextures, State.emit,
      Texture.gen_mipmaps, h0]

theorem Texture._upload_log_exact {st : State} {p : Nat} {t : Texture}
    (h : st.tex p = some t) (o : TextureOptions) :
    (Texture._upload p o st).log =
      st.log ++ (if t.id ≠ 0 then [Event.glDeleteTextures t.id] else []) ++
        [Event.glGenTextures (st.gl_names + 1),
          Event.glBindTexture GL_TEXTURE_2D (st.gl_names + 1),
          Event.glTexImage2D GL_TEXTURE_2D 0 (upload_internal_format o) t.width t.height 0
            (gl_format o.format) (gl_type o.type) t.buffer,
          Event.glTexParameteri GL_TEXTURE_2D GL_TEXTURE_WRAP_S (gl_wrap o.wrap_s),
          Event.glTexParameteri GL_TEXTURE_2D GL_TEXTURE_WRAP_T (gl_wrap o.wrap_t),
          Event.glTexParameteri GL_TEXTURE_2D GL_TEXTURE_MIN_FILTER (gl_filter o.min_filter),
          Event.glTexParameteri GL_TEXTURE_2D GL_TEXTURE_MAG_FILTER (gl_filter o.mag_filter)] ++
        (if upload_gen_mipmaps o then
          [Event.glBindTexture GL_TEXTURE_2D (st.gl_names + 1),
            Event.glGenerateMipmap GL_TEXTURE_2D]
        else []) := by
  rw [Texture._upload_eq h, State.setTex_log]
  exact Texture._upload_body_log_exact t o st

theorem upload_internal_format_of_not_compressing (o : TextureOptions)
    (h : ¬ (o.compressed = true ∧ o.editable = false)) :
    upload_internal_format o = gl_format o.internal_format := by
  unfold upload_internal_format
  cases hc : o.compressed <;> cases he : o.editable <;> simp_all

theorem upload_internal_format_of_compressing (o : TextureOptions)
    (h : o.compressed = true ∧ o.editable = false) :
    upload_internal_format o = gl_compressed_format (gl_format o.internal_format) := by
  unfold upload_internal_format
  simp [h.1, h.2]

theorem upload_gen_mipmaps_iff (o : TextureOptions) :
    upload_gen_mipmaps o = true ↔
      (o.min_filter = TextureOptions.Filter.LINEAR_MIPMAP ∨
        o.min_filter = TextureOptions.Filter.NEAREST_MIPMAP ∨
        o.min_filter = TextureOptions.Filter.NEAREST_LINEAR_MIPMAP ∨
        o.min_filter = TextureOptions.Filter.LINEAR_NEAREST_MIPMAP) := by
  unfold upload_gen_mipmaps
  cases o.min_filter <;> simp

/-! ## `gen_text` on a text that is not cached -/

theorem Texture.destroy_fresh (st : State) (p : Nat) (t : Texture) (h : st.tex p = some t)
    (hid : t.id = 0) (hm : t.managed = false) :
    Texture.destroy p st = { st with heap := st.heap.set p none } := by
  simp [Texture.destroy, h, hid, hm]

theorem TextureManager.gen_text_miss_error_state
    (ttf : Nat → Color → String → Option SDL_Surface) (font : Nat) (color : Color)
    (msg : String) (st : State) (hne : msg ≠ "")
    (h : find_text st.tex_man.text_textures msg = none) (hr : ttf font color msg = none) :
    (TextureManager.gen_text ttf font color msg st).2.tex_man = st.tex_man ∧
    (TextureManager.gen_text ttf font color msg st).2.log =
      st.log ++ [Event.TTF_RenderUTF8_Blended font color msg] ∧
    (TextureManager.gen_text ttf font color msg st).2.gl_textures = st.gl_textures ∧
    (TextureManager.gen_text ttf font color msg st).2.heap = st.heap ++ [none] := by
  have ht : (((st.alloc Texture.new).2).emit
      (Event.TTF_RenderUTF8_Blended font color msg)).tex st.heap.length = some Texture.new := by
    rw [State.emit_tex]
    exact State.tex_alloc st Texture.new
  simp only [TextureManager.gen_text, hne, if_false, h, hr, State.alloc_fst]
  rw [Texture.destroy_fresh _ _ _ ht rfl rfl]
  refine ⟨rfl, rfl, rfl, ?_⟩
  simp [State.emit, State.alloc]

theorem TextureManager.gen_text_miss_log
    (ttf : Nat → Color → String → Option SDL_Surface) (font : Nat) (color : Color)
    (msg : String) (st : State) (hne : msg ≠ "")
    (h : find_text st.tex_man.text_textures msg = none) :
    (TextureManager.gen_text ttf font color msg st).2.log =
      st.log ++ [Event.TTF_RenderUTF8_Blended font color msg] := by
  cases hr : ttf font color msg with
  | none => exact (TextureManager.gen_text_miss_error_state ttf font color msg st hne h hr).2.1
  | some s =>
    have ht : State.tex (((((st.alloc Texture.new).2.emit
        (Event.TTF_RenderUTF8_Blended font color msg)).modifyTex st.heap.length
          (fun t => { t with managed := true })).modifyTex st.heap.length
            (fun t => { t with width := size_t_of_int s.w })).modifyTex st.heap.length
              (fun t => { t with height := size_t_of_int s.h })) st.heap.length =
        some { Texture.new with managed := true, width := size_t_of_int s.w,
                                height := size_t_of_int s.h } := by
      have h0 : ((st.alloc Texture.new).2.emit
          (Event.TTF_RenderUTF8_Blended font color msg)).tex st.heap.length =
          some Texture.new := by
        rw [State.emit_tex]
        exact State.tex_alloc st Texture.new
      rw [State.modifyTex_tex_self (State.modifyTex_tex_self (State.modifyTex_tex_self h0 _) _) _]
    simp only [TextureManager.gen_text, hne, if_false, h, hr, State.alloc_fst]
    rw [Texture.upload_surface_deferred ht s rfl]
    simp [State.emit]

/-! ## The alignment search of `_upload(surface)` -/

theorem unpack_alignment_three (pitch : Int) :
    unpack_alignment 3 pitch =
      if pitch.tmod 8 ≠ 0 then
        if pitch.tmod 4 ≠ 0 then
          if pitch.tmod 2 ≠ 0 then 1 else 2
        else 4
      else 8 := by
  simp [unpack_alignment]

theorem unpack_alignment_mem (pitch : Int) :
    unpack_alignment 3 pitch = 1 ∨ unpack_alignment 3 pitch = 2 ∨
      unpack_alignment 3 pitch = 4 ∨ unpack_alignment 3 pitch = 8 := by
  rw [unpack_alignment_three]
  split_ifs <;> simp

theorem unpack_alignment_dvd (pitch : Int) : unpack_alignment 3 pitch ∣ pitch := by
  rw [unpack_alignment_three]
  split_ifs with h8 h4 h2
  · exact one_dvd _
  · exact Int.dvd_of_tmod_eq_zero (not_not.mp h2)
  · exact Int.dvd_of_tmod_eq_zero (not_not.mp h4)
  · exact Int.dvd_of_tmod_eq_zero (not_not.mp h8)

theorem ge_iff_pos_of_dvd (a d : Int) (ha : 1 ≤ a) (hd : a ∣ d) : d ≥ a ↔ d > 0 := by
  obtain ⟨k, rfl⟩ := hd
  constructor
  · intro h
    omega
  · intro h
    have hk : 1 ≤ k := by
      by_contra hk
      have : k ≤ 0 := by omega
      have : a * k ≤ 0 := Int.mul_nonpos_of_nonneg_of_nonpos (by omega) this
      omega
    nlinarith

theorem expected_pitch_ge (x a : Int) (hx : 0 ≤ x)
    (ha : a = 1 ∨ a = 2 ∨ a = 4 ∨ a = 8) : x ≤ ((x + a - 1).tdiv a) * a := by
  rcases ha with rfl | rfl | rfl | rfl <;>
    (rw [Int.tdiv_eq_ediv (by omega) (by norm_num)]; omega)

theorem Texture._upload_surface_body_log (t : Texture) (s : SDL_Surface) (st : State)
    (hw : s.w ≠ 0) (hh : s.h ≠ 0) :
    (Texture._upload_surface_body t s st).2.log =
      st.log ++
        [Event.glPixelStorei GL_UNPACK_ALIGNMENT (unpack_alignment 3 s.pitch),
          Event.glPixelStorei GL_UNPACK_ROW_LENGTH
            (if c_int (s.pitch - surface_expected_pitch s (unpack_alignment 3 s.pitch)) ≥
                unpack_alignment 3 s.pitch
              then s.pitch.tdiv s.format.BytesPerPixel else 0),
          Event.glGenTextures (st.gl_names + 1),
          Event.glBindTexture GL_TEXTURE_2D (st.gl_names + 1),
          Event.glTexImage2D GL_TEXTURE_2D 0 s.format.BytesPerPixel s.w s.h 0
            (surface_texture_format s) GL_UNSIGNED_BYTE (some s.pixels),
          Event.glTexParameteri GL_TEXTURE_2D GL_TEXTURE_MIN_FILTER GL_LINEAR_MIPMAP_LINEAR,
          Event.glTexParameteri GL_TEXTURE_2D GL_TEXTURE_MAG_FILTER GL_LINEAR,
          Event.glPixelStorei GL_UNPACK_ALIGNMENT 4,
          Event.glPixelStorei GL_UNPACK_ROW_LENGTH 0,
          Event.glBindTexture GL_TEXTURE_2D (st.gl_names + 1),
          Event.glGenerateMipmap GL_TEXTURE_2D, Event.SDL_FreeSurface s.addr] := by
  unfold Texture._upload_surface_body
  rw [if_neg (by simp [hw, hh])]
  simp only [State.glGenTextures, State.emit, Texture.gen_mipmaps]
  split <;> simp

/-! ## `int` arithmetic without overflow -/

theorem c_int_of_range (i : Int) (h₁ : -2147483648 ≤ i) (h₂ : i < 2147483648) :
    c_int i = i := by
  unfold c_int
  norm_num
  omega

theorem padded_row_bounds (y a : Int) (ha : 1 ≤ a) (hy : 0 ≤ y) :
    0 ≤ y / a * a ∧ y / a * a ≤ y ∧ y < y / a * a + a := by
  have hdm := Int.ediv_add_emod y a
  have hm0 := Int.emod_nonneg y (show a ≠ 0 by omega)
  have hm1 := Int.emod_lt_of_pos y (show 0 < a by omega)
  have hq : 0 ≤ y / a := Int.ediv_nonneg hy (by omega)
  have hc : y / a * a = a * (y / a) := Int.mul_comm _ _
  refine ⟨?_, ?_, ?_⟩
  · exact Int.mul_nonneg hq (by omega)
  · rw [hc]; omega
  · rw [hc]; omega

theorem surface_expected_pitch_eq (s : SDL_Surface) (a : Int)
    (ha : a = 1 ∨ a = 2 ∨ a = 4 ∨ a = 8) (hw : 0 ≤ s.w)
    (hfit : s.w * s.format.BytesPerPixel + 8 < 2147483648) :
    surface_expected_pitch s a = (s.w * s.format.BytesPerPixel + a - 1) / a * a ∧
    s.w * s.format.BytesPerPixel ≤ surface_expected_pitch s a ∧
    surface_expected_pitch s a < 2147483648 := by
  unfold surface_expected_pitch
  have hx : 0 ≤ s.w * (s.format.BytesPerPixel : Int) :=
    Int.mul_nonneg hw (Int.ofNat_nonneg _)
  generalize s.w * (s.format.BytesPerPixel : Int) = x at hx hfit ⊢
  have ha' : 1 ≤ a ∧ a ≤ 8 := by
    rcases ha with h | h | h | h <;> omega
  have h1 : c_int x = x := c_int_of_range x (by omega) (by omega)
  have h2 : c_int (x + a) = x + a := c_int_of_range (x + a) (by omega) (by omega)
  have h3 : c_int (x + a - 1) = x + a - 1 := c_int_of_range (x + a - 1) (by omega) (by omega)
  have h4 : (x + a - 1).tdiv a = (x + a - 1) / a :=
    Int.tdiv_eq_ediv (by omega) (by omega)
  obtain ⟨b0, b1, b2⟩ := padded_row_bounds (x + a - 1) a ha'.1 (by omega)
  have h5 : c_int ((x + a - 1) / a * a) = (x + a - 1) / a * a :=
    c_int_of_range ((x + a - 1) / a * a) (by omega) (by omega)
  rw [h1, h2, h3, h4, h5]
  refine ⟨rfl, ?_, ?_⟩ <;> omega

/-! ## Pending requests target allocated objects -/

theorem QueueAllocated.of_same {st st' : State} (h : QueueAllocated st)
    (hq : st'.tex_man.unuploaded_textures = st.tex_man.unuploaded_textures)
    (hl : st.heap.length ≤ st'.heap.length) : QueueAllocated st' := by
  intro r hr
  rw [hq] at hr
  exact Nat.lt_of_lt_of_le (h r hr) hl

theorem QueueAllocated.push {st : State} (h : QueueAllocated st) (r : TextureUploadRequest)
    (hr : r.texture < st.heap.length) :
    QueueAllocated (st.setQueue (st.tex_man.unuploaded_textures ++ [r])) := by
  intro r' hr'
  simp only [State.setQueue_queue, List.mem_append, List.mem_singleton] at hr'
  rcases hr' with h' | h'
  · exact h r' h'
  · rw [h']
    exact hr

theorem Texture._upload_surface_heap_length (p : Nat) (s : SDL_Surface) (st : State) :
    (Texture._upload_surface p s st).heap.length = st.heap.length := by
  unfold Texture._upload_surface
  cases h : st.tex p <;> simp [Texture._upload_surface_body_heap]

theorem Texture._upload_queueAllocated (p : Nat) (o : TextureOptions) (st : State)
    (h : QueueAllocated st) : QueueAllocated (Texture._upload p o st) :=
  h.of_same (by rw [Texture._upload_tex_man]) (by rw [Texture._upload_heap_length])

theorem Texture._upload_surface_queueAllocated (p : Nat) (s : SDL_Surface) (st : State)
    (h : QueueAllocated st) : QueueAllocated (Texture._upload_surface p s st) :=
  h.of_same (by rw [Texture._upload_surface_tex_man])
    (by rw [Texture._upload_surface_heap_length])

theorem Texture.upload_queueAllocated (p : Nat) (o : TextureOptions) (st : State)
    (h : QueueAllocated st) : QueueAllocated (Texture.upload p o st) := by
  unfold Texture.upload
  cases ht : st.tex p with
  | none => exact h
  | some t =>
    simp only []
    split
    · exact Texture._upload_queueAllocated p o st h
    · split
      · exact h.push _ (State.tex_lt ht)
      · exact h

theorem Texture.upload_surface_queueAllocated (p : Nat) (s : SDL_Surface) (st : State)
    (h : QueueAllocated st) : QueueAllocated (Texture.upload_surface p s st) := by
  unfold Texture.upload_surface
  cases ht : st.tex p with
  | none => exact h
  | some t =>
    simp only []
    split
    · exact Texture._upload_surface_queueAllocated p s st h
    · split
      · exact h.push _ (State.tex_lt ht)
      · exact h

theorem TextureManager.drain_queueAllocated (st : State) (h : QueueAllocated st) :
    QueueAllocated (TextureManager.upload st) := by
  unfold TextureManager.upload
  cases hl : st.tex_man.unuploaded_textures.getLast? with
  | none => exact h
  | some r =>
    intro r' hr'
    simp only [State.setQueue_queue, TextureManager.perform_request_tex_man] at hr'
    have hmem : r' ∈ st.tex_man.unuploaded_textures := List.mem_of_mem_dropLast hr'
    have hlen : (TextureManager.perform_request r st).heap.length = st.heap.length := by
      unfold TextureManager.perform_request
      cases r.surface <;>
        simp [Texture._upload_heap_length, Texture._upload_surface_heap_length]
    show r'.texture < (TextureManager.perform_request r st).heap.length
    rw [hlen]
    exact h r' hmem

theorem State.modifyTex_queueAllocated {st : State} (h : QueueAllocated st) (p : Nat)
    (f : Texture → Texture) : QueueAllocated (st.modifyTex p f) :=
  h.of_same (by simp) (by rw [State.modifyTex_heap_length])

theorem State.alloc_queueAllocated {st : State} (h : QueueAllocated st) (t : Texture) :
    QueueAllocated (st.alloc t).2 :=
  h.of_same (by simp [State.alloc]) (by simp [State.alloc])

theorem State.emit_queueAllocated {st : State} (h : QueueAllocated st) (e : Event) :
    QueueAllocated (st.emit e) :=
  h.of_same (by simp [State.emit]) (by simp [State.emit])

theorem Texture.destroy_queueAllocated (p : Nat) (st : State) (h : QueueAllocated st) :
    QueueAllocated (Texture.destroy p st) := by
  unfold Texture.destroy
  cases ht : st.tex p with
  | none => exact h
  | some t =>
    intro r hr
    by_cases hid : t.id ≠ 0 <;> by_cases hm : t.managed = true <;>
      simp [hid, hm, Texture.delete_gputex, State.setQueue, State.emit,
        State.glDeleteTextures] at hr ⊢ <;>
      first
      | exact h r (List.mem_of_mem_eraseP hr)
      | exact h r hr

theorem TextureManager.get_white_queueAllocated (st : State) (h : QueueAllocated st) :
    QueueAllocated (TextureManager.get_white st).2 := by
  unfold TextureManager.get_white
  cases hw : st.tex_man.white with
  | some p => exact h
  | none =>
    simp only []
    apply Texture.upload_queueAllocated
    apply State.modifyTex_queueAllocated
    exact (State.alloc_queueAllocated h _).of_same rfl (Nat.le_refl _)

theorem TextureManager.load_queueAllocated (decode : String → Option BinaryImage)
    (path : String) (o : TextureOptions) (st : State) (h : QueueAllocated st) :
    QueueAllocated (TextureManager.load decode path o st).2 := by
  cases hf : find_texture st.tex_man.textures (path, o) with
  | some tex => rw [TextureManager.load_hit decode path o st tex hf]; exact h
  | none =>
    simp only [TextureManager.load, hf]
    refine @QueueAllocated.of_same (Texture.upload _ o _) _ ?_ rfl (Nat.le_refl _)
    apply Texture.upload_queueAllocated
    apply State.modifyTex_queueAllocated
    cases decode path <;> exact State.alloc_queueAllocated (State.emit_queueAllocated h _) _

theorem TextureManager.gen_text_queueAllocated
    (ttf : Nat → Color → String → Option SDL_Surface) (font : Nat) (color : Color)
    (msg : String) (st : State) (h : QueueAllocated st) :
    QueueAllocated (TextureManager.gen_text ttf font color msg st).2 := by
  unfold TextureManager.gen_text
  by_cases hm : msg = ""
  · simp only [hm, if_true]
    exact TextureManager.get_white_queueAllocated st h
  · simp only [hm, if_false]
    cases hf : find_text st.tex_man.text_textures msg with
    | some tex => exact h
    | none =>
      simp only []
      have h₁ : QueueAllocated ((st.alloc Texture.new).2.emit
          (Event.TTF_RenderUTF8_Blended font color msg)) :=
        State.emit_queueAllocated (State.alloc_queueAllocated h _) _
      cases ttf font color msg with
      | none => exact Texture.destroy_queueAllocated _ _ h₁
      | some surface =>
        simp only []
        refine @QueueAllocated.of_same (Texture.upload_surface _ surface _) _ ?_ rfl
          (Nat.le_refl _)
        apply Texture.upload_surface_queueAllocated
        exact State.modifyTex_queueAllocated (State.modifyTex_queueAllocated
          (State.modifyTex_queueAllocated h₁ _ _) _ _) _ _

theorem Call.run_queueAllocated (decode : String → Option BinaryImage)
    (ttf : Nat → Color → String → Option SDL_Surface) (c : Call) (st : State)
    (h : QueueAllocated st) : QueueAllocated (c.run decode ttf st) := by
  cases c with
  | load path o => exact TextureManager.load_queueAllocated decode path o st h
  | gen_text f col m => exact TextureManager.gen_text_queueAllocated ttf f col m st h
  | get_white => exact TextureManager.get_white_queueAllocated st h
  | drain => exact TextureManager.drain_queueAllocated st h
  | upload p o => exact Texture.upload_queueAllocated p o st h
  | upload_surface p s => exact Texture.upload_surface_queueAllocated p s st h

theorem run_calls_queueAllocated (decode : String → Option BinaryImage)
    (ttf : Nat → Color → String → Option SDL_Surface) (cs : List Call) (st : State)
    (h : QueueAllocated st) : QueueAllocated (run_calls decode ttf cs st) := by
  induction cs generalizing st with
  | nil => exact h
  | cons c cs ih => exact ih (c.run decode ttf st) (Call.run_queueAllocated decode ttf c st h)

theorem State.initial_queueAllocated : QueueAllocated State.initial := by
  intro r hr
  simp [State.initial] at hr

/-! ## Claim C1: a second load of an equal key -/

/-- Claim C1: for every decoder, path, manager state and two option values that compare
equal under `operator==`, a second `TextureManager::load` returns the same texture
address as the first and leaves the whole state as it found it: the trace has no new
decode or device call, the upload queue and the path-keyed map are unchanged. This holds
for the call right after the first one and after any sequence of client calls in
between. -/
theorem load_twice_returns_same_instance (decode decode' : String → Option BinaryImage)
    (path : String) (o₁ o₂ : TextureOptions) (st : State)
    (h : o₁.operator_eq o₂ = true) :
    TextureManager.load decode' path o₂ (TextureManager.load decode path o₁ st).2 =
        ((TextureManager.load decode path o₁ st).1, (TextureManager.load decode path o₁ st).2) ∧
    ∀ (decode'' : String → Option BinaryImage)
      (ttf : Nat → Color → String → Option SDL_Surface) (cs : List Call),
      TextureManager.load decode' path o₂
          (run_calls decode'' ttf cs (TextureManager.load decode path o₁ st).2) =
        ((TextureManager.load decode path o₁ st).1,
          run_calls decode'' ttf cs (TextureManager.load decode path o₁ st).2) := by
  have hit : find_texture (TextureManager.load decode path o₁ st).2.tex_man.textures (path, o₂)
      = some (TextureManager.load decode path o₁ st).1 := by
    rw [← find_texture_congr _ path o₁ o₂ h]
    cases hf : find_texture st.tex_man.textures (path, o₁) with
    | some tex =>
      rw [TextureManager.load_hit decode path o₁ st tex hf]
      exact hf
    | none =>
      obtain ⟨h1, h2⟩ := TextureManager.load_miss decode path o₁ st hf
      rw [h1, h2, ← (find_texture_assign_of_none _ _ st.heap.length hf).1]
      exact (find_texture_assign_of_none _ _ st.heap.length hf).2
  refine ⟨TextureManager.load_hit decode' path o₂ _ _ hit, ?_⟩
  intro decode'' ttf cs
  exact TextureManager.load_hit decode' path o₂ _ _
    ((run_calls_cachesKept decode'' ttf cs _).1 _ _ hit)

theorem load_twice_returns_same_instance_witness :
    TextureOptions.operator_eq { } { instant_upload := true, compressed := false } = true ∧
      TextureManager.load sample_decode "a.png" { instant_upload := true, compressed := false }
          (TextureManager.load missing_file "a.png" { } sample_state).2 =
        ((TextureManager.load missing_file "a.png" { } sample_state).1,
          (TextureManager.load missing_file "a.png" { } sample_state).2) :=
  ⟨by decide,
    (load_twice_returns_same_instance missing_file sample_decode "a.png" { }
      { instant_upload := true, compressed := false } sample_state (by decide)).1⟩

/-! ## Claim C2: destruction and the upload queue -/

/-- Claim C2, evaluated where it fails: a managed texture (address 0) with two pending
requests is destroyed. The destructor erases the first of them only, so the queue still
holds a request whose target is the destroyed object, and it is the request that the
next drain takes. -/
theorem destroy_erases_only_first_request :
    sample_state.tex 0 = some sample_texture ∧ sample_texture.managed = true ∧
    (Texture.upload 0 { } (Texture.upload 0 { } sample_state)).tex_man.unuploaded_textures =
      [{ texture := 0 }, { texture := 0 }] ∧
    (Texture.destroy 0
      (Texture.upload 0 { } (Texture.upload 0 { } sample_state))).tex 0 = none ∧
    (Texture.destroy 0
      (Texture.upload 0 { } (Texture.upload 0 { } sample_state))).tex_man.unuploaded_textures =
      [{ texture := 0 }] ∧
    (Texture.destroy 0
      (Texture.upload 0 { } (Texture.upload 0 { } sample_state))).tex_man.unuploaded_textures.getLast?
      = some { texture := 0 } := by
  decide

/-! ## Claim C3: the drain takes the last request -/

/-- Claim C3: `TextureManager::upload` leaves a state with an empty queue as it is; on a
queue `q ++ [r]` it performs `r`, the most recently enqueued request, and nothing else,
and the queue that remains is `q`, unchanged and in order. Two requests `ra`, `rb` put
at the end of the queue in that order are performed by two drains as `rb`, then `ra`.
In particular, for two different managed textures `a` and `b` enqueued in that order,
two drains amount to `_upload` on `b` followed by `_upload` on `a` (so `b` receives the
earlier device name), and the queue is back to what it was before the two enqueues
(empty if it was empty). -/
theorem drain_takes_most_recent_request :
    (∀ st : State, st.tex_man.unuploaded_textures = [] → TextureManager.upload st = st) ∧
    (∀ (st : State) (q : List TextureUploadRequest) (r : TextureUploadRequest),
      st.tex_man.unuploaded_textures = q ++ [r] →
        TextureManager.upload st = (TextureManager.perform_request r st).setQueue q ∧
        (TextureManager.upload st).tex_man.unuploaded_textures = q) ∧
    (∀ (st : State) (ra rb : TextureUploadRequest),
      TextureManager.upload (TextureManager.upload
          (st.setQueue (st.tex_man.unuploaded_textures ++ [ra, rb]))) =
        TextureManager.perform_request ra (TextureManager.perform_request rb st)) ∧
    (∀ (st : State) (a b : Nat) (ta tb : Texture) (oa ob : TextureOptions),
      a ≠ b → st.tex a = some ta → st.tex b = some tb →
      ta.managed = true → tb.managed = true →
      oa.instant_upload = false → ob.instant_upload = false →
        (Texture.upload b ob (Texture.upload a oa st)).tex_man.unuploaded_textures =
          st.tex_man.unuploaded_textures ++
            [{ texture := a, options := oa }, { texture := b, options := ob }] ∧
        TextureManager.upload (TextureManager.upload
            (Texture.upload b ob (Texture.upload a oa st))) =
          Texture._upload a oa (Texture._upload b ob st) ∧
        (TextureManager.upload (TextureManager.upload
            (Texture.upload b ob (Texture.upload a oa st)))).tex_man.unuploaded_textures =
          st.tex_man.unuploaded_textures ∧
        (TextureManager.upload (TextureManager.upload
            (Texture.upload b ob (Texture.upload a oa st)))).tex b =
          some { tb with id := st.gl_names + 1,
                         buffer := if ob.editable then tb.buffer else none } ∧
        (TextureManager.upload (TextureManager.upload
            (Texture.upload b ob (Texture.upload a oa st)))).tex a =
          some { ta with id := st.gl_names + 2,
                         buffer := if oa.editable then ta.buffer else none }) := by
  refine ⟨?_, ?_, ?_, ?_⟩
  · intro st h
    simp [TextureManager.upload, h]
  · intro st q r h
    rw [TextureManager.upload_of_append st q r h]
    exact ⟨rfl, rfl⟩
  · intro st ra rb
    have h1 : TextureManager.upload
        (st.setQueue (st.tex_man.unuploaded_textures ++ [ra, rb])) =
        (TextureManager.perform_request rb st).setQueue
          (st.tex_man.unuploaded_textures ++ [ra]) := by
      rw [TextureManager.upload_of_append _ (st.tex_man.unuploaded_textures ++ [ra]) rb
        (by simp)]
      simp only [TextureManager.perform_request_setQueue, State.setQueue_setQueue]
    rw [h1, TextureManager.upload_of_append _ st.tex_man.unuploaded_textures ra (by simp)]
    simp only [TextureManager.perform_request_setQueue, State.setQueue_setQueue]
    apply State.setQueue_self
    rw [TextureManager.perform_request_tex_man, TextureManager.perform_request_tex_man]
  · intro st a b ta tb oa ob hab ha hb hma hmb hia hib
    have h1 : Texture.upload a oa st =
        st.setQueue (st.tex_man.unuploaded_textures ++ [{ texture := a, options := oa }]) :=
      Texture.upload_deferred ha oa hma hia
    have h2 : Texture.upload b ob (Texture.upload a oa st) =
        st.setQueue (st.tex_man.unuploaded_textures ++
          [{ texture := a, options := oa }, { texture := b, options := ob }]) := by
      rw [h1, Texture.upload_deferred (t := tb) (by simpa using hb) ob hmb hib]
      simp
    have h3 : TextureManager.upload (Texture.upload b ob (Texture.upload a oa st)) =
        (Texture._upload b ob st).setQueue
          (st.tex_man.unuploaded_textures ++ [{ texture := a, options := oa }]) := by
      rw [h2, TextureManager.upload_of_append _
        (st.tex_man.unuploaded_textures ++ [{ texture := a, options := oa }])
        { texture := b, options := ob } (by simp)]
      simp [TextureManager.perform_request, Texture._upload_setQueue]
    have h4 : TextureManager.upload (TextureManager.upload
        (Texture.upload b ob (Texture.upload a oa st))) =
        Texture._upload a oa (Texture._upload b ob st) := by
      rw [h3, TextureManager.upload_of_append _ st.tex_man.unuploaded_textures
        { texture := a, options := oa } (by simp)]
      simp only [TextureManager.perform_request, Texture._upload_setQueue,
        State.setQueue_setQueue]
      apply State.setQueue_self
      rw [Texture._upload_tex_man, Texture._upload_tex_man]
    have hb' : (Texture._upload b ob st).tex b =
        some { tb with id := st.gl_names + 1,
                       buffer := if ob.editable then tb.buffer else none } :=
      Texture._upload_tex_self hb ob
    have ha' : (Texture._upload b ob st).tex a = some ta := by
      rw [Texture._upload_tex_of_ne b a ob st hab, ha]
    have hn : (Texture._upload b ob st).gl_names = st.gl_names + 1 := by
      rw [Texture._upload_eq hb]
      simp [Texture._upload_body_gl_names]
    refine ⟨by rw [h2]; rfl, h4, ?_, ?_, ?_⟩
    · rw [h4, Texture._upload_tex_man, Texture._upload_tex_man]
    · rw [h4, Texture._upload_tex_of_ne a b oa _ (Ne.symm hab), hb']
    · rw [h4, Texture._upload_tex_self ha' oa, hn]

theorem drain_takes_most_recent_request_witness :
    (0 : Nat) ≠ 1 ∧ sample_state.tex 0 = some sample_texture ∧
      sample_state.tex 1 = some { sample_texture with buffer := some [5, 6, 7, 8] } ∧
      TextureManager.upload (TextureManager.upload
          (Texture.upload 1 { } (Texture.upload 0 { } sample_state))) =
        Texture._upload 0 { } (Texture._upload 1 { } sample_state) :=
  ⟨by decide, rfl, rfl,
    (drain_takes_most_recent_request.2.2.2 sample_state 0 1 sample_texture
      { sample_texture with buffer := some [5, 6, 7, 8] } { } { }
      (by decide) rfl rfl rfl rfl rfl rfl).2.1⟩

/-! ## Claim C4: immediate or deferred upload -/

/-- Claim C4: `Texture::upload(options)` on a live texture performs the device upload on
the spot (it is `_upload(options)`, whose trace contains the `glTexImage2D` call) exactly
when `instant_upload` is set or the texture is not managed; otherwise it only appends the
request (this texture, the given options, no surface) at the end of the queue, the
texture object (handle and buffer included) and the device trace staying as they were. -/
theorem upload_immediate_iff_instant_or_unmanaged (st : State) (p : Nat) (t : Texture)
    (o : TextureOptions) (h : st.tex p = some t) :
    ((o.instant_upload = true ∨ t.managed = false) →
      Texture.upload p o st = Texture._upload p o st ∧
      ∃ l, (Texture.upload p o st).log = st.log ++ l ∧
        Event.glTexImage2D GL_TEXTURE_2D 0 (upload_internal_format o) t.width t.height 0
          (gl_format o.format) (gl_type o.type) t.buffer ∈ l) ∧
    (¬ (o.instant_upload = true ∨ t.managed = false) →
      Texture.upload p o st =
        st.setQueue (st.tex_man.unuploaded_textures ++
          [{ texture := p, options := o, surface := none }]) ∧
      (Texture.upload p o st).tex p = some t ∧
      (Texture.upload p o st).log = st.log ∧
      (Texture.upload p o st).gl_textures = st.gl_textures) ∧
    ((Texture.upload p o st).log ≠ st.log ↔ (o.instant_upload = true ∨ t.managed = false)) := by
  have himm : (o.instant_upload = true ∨ t.managed = false) →
      Texture.upload p o st = Texture._upload p o st ∧
      ∃ l, (Texture.upload p o st).log = st.log ++ l ∧
        Event.glTexImage2D GL_TEXTURE_2D 0 (upload_internal_format o) t.width t.height 0
          (gl_format o.format) (gl_type o.type) t.buffer ∈ l := by
    intro hc
    rw [Texture.upload_immediate h o hc]
    exact ⟨rfl, Texture._upload_log h o⟩
  have hdef : ¬ (o.instant_upload = true ∨ t.managed = false) →
      Texture.upload p o st =
        st.setQueue (st.tex_man.unuploaded_textures ++
          [{ texture := p, options := o, surface := none }]) := by
    intro hc
    have hi : o.instant_upload = false := by
      cases hio : o.instant_upload
      · rfl
      · exact absurd (Or.inl hio) hc
    have hm : t.managed = true := by
      cases hmo : t.managed
      · exact absurd (Or.inr hmo) hc
      · rfl
    exact Texture.upload_deferred h o hm hi
  refine ⟨himm, ?_, ?_⟩
  · intro hc
    rw [hdef hc]
    exact ⟨rfl, h, rfl, rfl⟩
  · constructor
    · intro hne
      by_contra hc
      rw [hdef hc] at hne
      exact hne rfl
    · intro hc
      obtain ⟨_, l, hl, hmem⟩ := himm hc
      rw [hl]
      intro habs
      have : l = [] := by simpa using habs
      rw [this] at hmem
      simp at hmem

theorem upload_immediate_iff_instant_or_unmanaged_witness :
    sample_state.tex 0 = some sample_texture ∧
      ((Texture.upload 0 { } sample_state).log ≠ sample_state.log ↔
        (({ } : TextureOptions).instant_upload = true ∨ sample_texture.managed = false)) :=
  ⟨rfl, (upload_immediate_iff_instant_or_unmanaged sample_state 0 sample_texture { } rfl).2.2⟩

/-! ## Claim C5: enqueue, then drain -/

/-- Claim C5, evaluated where it fails: a managed texture whose CPU buffer is present
receives `upload(surface)` with a surface of width 0 on an empty queue. The request
carries the default options (editable = false); after one drain the queue is empty but
the buffer is still there. -/
theorem enqueue_then_drain_zero_surface_keeps_buffer :
    sample_state.tex_man.unuploaded_textures = [] ∧
    sample_state.tex 0 = some sample_texture ∧ sample_texture.managed = true ∧
    (Texture.upload_surface 0 zero_width_surface sample_state).tex_man.unuploaded_textures =
      [{ texture := 0, options := { }, surface := some zero_width_surface }] ∧
    ({ } : TextureOptions).editable = false ∧
    (TextureManager.upload
      (Texture.upload_surface 0 zero_width_surface sample_state)).tex_man.unuploaded_textures
      = [] ∧
    ((TextureManager.upload
      (Texture.upload_surface 0 zero_width_surface sample_state)).tex 0).map
        (fun t => t.buffer) = some (some [1, 2, 3, 4]) := by
  decide

/-- Claim C5 as amended: from an empty queue and for every live managed texture, one
`upload(options)` without instant_upload followed by one drain leaves the queue empty and
the CPU buffer released when editable = false and untouched when editable = true (so a
buffer that was present is released iff editable = false); one `upload(surface)` with a
surface of non-zero width and height (its request carries the default options, editable
= false) followed by one drain leaves the queue empty and the buffer released. -/
theorem enqueue_then_drain_releases_buffer (st : State) (p : Nat) (t : Texture)
    (h : st.tex p = some t) (hm : t.managed = true)
    (hq : st.tex_man.unuploaded_textures = []) :
    (∀ o : TextureOptions, o.instant_upload = false →
      (Texture.upload p o st).tex_man.unuploaded_textures = [{ texture := p, options := o }] ∧
      (TextureManager.upload (Texture.upload p o st)).tex_man.unuploaded_textures = [] ∧
      ∃ t', (TextureManager.upload (Texture.upload p o st)).tex p = some t' ∧
        (o.editable = false → t'.buffer = none) ∧
        (o.editable = true → t'.buffer = t.buffer) ∧
        (t.buffer ≠ none → (t'.buffer = none ↔ o.editable = false))) ∧
    (∀ s : SDL_Surface, s.w ≠ 0 → s.h ≠ 0 →
      (Texture.upload_surface p s st).tex_man.unuploaded_textures =
        [{ texture := p, options := default_options, surface := some s }] ∧
      default_options.editable = false ∧
      (TextureManager.upload (Texture.upload_surface p s st)).tex_man.unuploaded_textures = [] ∧
      ∃ t', (TextureManager.upload (Texture.upload_surface p s st)).tex p = some t' ∧
        t'.buffer = none) := by
  constructor
  · intro o hi
    have h1 : Texture.upload p o st = st.setQueue ([] ++ [{ texture := p, options := o }]) := by
      rw [Texture.upload_deferred h o hm hi, hq]
    have h2 : TextureManager.upload (Texture.upload p o st) =
        (Texture._upload p o st).setQueue [] := by
      rw [h1, TextureManager.upload_of_append _ [] { texture := p, options := o } (by simp)]
      simp [TextureManager.perform_request, Texture._upload_setQueue]
    refine ⟨by rw [h1]; rfl, by rw [h2]; rfl,
      { t with id := st.gl_names + 1, buffer := if o.editable then t.buffer else none },
      ?_, ?_, ?_, ?_⟩
    · rw [h2, State.setQueue_tex]
      exact Texture._upload_tex_self h o
    · intro he
      simp [he]
    · intro he
      simp [he]
    · intro hb
      cases he : o.editable <;> simp [hb]
  · intro s hw hh
    have h1 : Texture.upload_surface p s st =
        st.setQueue ([] ++ [{ texture := p, surface := some s }]) := by
      rw [Texture.upload_surface_deferred h s hm, hq]
    have h2 : TextureManager.upload (Texture.upload_surface p s st) =
        (Texture._upload_surface p s st).setQueue [] := by
      rw [h1, TextureManager.upload_of_append _ [] { texture := p, surface := some s }
        (by simp)]
      simp [TextureManager.perform_request, Texture._upload_surface_setQueue]
    refine ⟨by rw [h1]; rfl, rfl, by rw [h2]; rfl,
      { t with buffer := none, width := size_t_of_int s.w, height := size_t_of_int s.h,
               id := st.gl_names + 1 }, ?_, ?_⟩
    · rw [h2, State.setQueue_tex]
      exact Texture._upload_surface_tex_self h s hw hh
    · rfl

theorem enqueue_then_drain_releases_buffer_witness :
    sample_state.tex 0 = some sample_texture ∧ sample_texture.managed = true ∧
      sample_state.tex_man.unuploaded_textures = [] ∧
      (TextureManager.upload
        (Texture.upload 0 { editable := true } sample_state)).tex_man.unuploaded_textures = [] :=
  ⟨rfl, rfl, rfl,
    ((enqueue_then_drain_releases_buffer sample_state 0 sample_texture rfl rfl rfl).1
      { editable := true } rfl).2.1⟩

/-! ## Claim C6: the cache key -/

/-- Claim C6: `TextureOptions::operator==` holds exactly when the two values agree on
target, wrap_s, wrap_t, min_filter, mag_filter, internal_format, format, type and
editable; changing instant_upload or compressed on either side never changes its
result; and `TextureMapHash` gives equal hashes to two keys that are equal for the map
(same path, compare-equal options). -/
theorem cache_key_ignores_instant_upload_and_compressed :
    (∀ a b : TextureOptions, a.operator_eq b = true ↔
      (a.target = b.target ∧ a.wrap_s = b.wrap_s ∧ a.wrap_t = b.wrap_t ∧
        a.min_filter = b.min_filter ∧ a.mag_filter = b.mag_filter ∧
        a.internal_format = b.internal_format ∧ a.format = b.format ∧
        a.type = b.type ∧ a.editable = b.editable)) ∧
    (∀ (a b : TextureOptions) (i c j d : Bool),
      TextureOptions.operator_eq { a with instant_upload := i, compressed := c }
        { b with instant_upload := j, compressed := d } = a.operator_eq b) ∧
    (∀ (h : StdHash) (k₁ k₂ : String × TextureOptions),
      key_eq k₁ k₂ = true → TextureMapHash h k₁ = TextureMapHash h k₂) := by
  refine ⟨TextureOptions.operator_eq_iff, ?_, ?_⟩
  · intro a b i c j d
    rfl
  · intro h k₁ k₂ hk
    have hk' : k₁.1 = k₂.1 ∧ k₁.2.operator_eq k₂.2 = true := by
      simpa [key_eq] using hk
    obtain ⟨hp, ho⟩ := hk'
    obtain ⟨h1, h2, h3, h4, h5, h6, h7, h8, h9⟩ := (TextureOptions.operator_eq_iff _ _).mp ho
    simp only [TextureMapHash, hp, h1, h2, h3, h4, h5, h6, h7, h8, h9]

theorem cache_key_ignores_instant_upload_and_compressed_witness :
    key_eq ("a.png", { }) ("a.png", { instant_upload := true, compressed := false }) = true ∧
      TextureMapHash sample_hash ("a.png", { }) =
        TextureMapHash sample_hash ("a.png", { instant_upload := true, compressed := false }) :=
  ⟨by decide,
    cache_key_ignores_instant_upload_and_compressed.2.2 sample_hash _ _ (by decide)⟩

/-! ## Claim C7: text textures and the white texture -/

/-- Claim C7: for a non-empty text, if `gen_text` succeeded, a later call with the same
text (whatever the font, the colour and the rasterizer of that call, right away or after
any sequence of client calls) returns the same texture address and leaves the state as
it found it, so that it neither rasterizes nor uploads nor enqueues. For the empty text
`gen_text` is `get_white` in every state; `get_white` stores the instance it returns in
`white`, and every later `get_white` returns that instance without touching the state. -/
theorem gen_text_twice_returns_same_instance :
    (∀ (ttf ttf' ttf'' : Nat → Color → String → Option SDL_Surface)
        (decode : String → Option BinaryImage) (f₁ f₂ : Nat) (c₁ c₂ : Color)
        (msg : String) (st st₁ : State) (tex : Nat) (cs : List Call),
      msg ≠ "" → TextureManager.gen_text ttf f₁ c₁ msg st = (Except.ok tex, st₁) →
        TextureManager.gen_text ttf' f₂ c₂ msg st₁ = (Except.ok tex, st₁) ∧
        TextureManager.gen_text ttf' f₂ c₂ msg (run_calls decode ttf'' cs st₁) =
          (Except.ok tex, run_calls decode ttf'' cs st₁)) ∧
    (∀ (ttf : Nat → Color → String → Option SDL_Surface) (f : Nat) (c : Color) (st : State),
      TextureManager.gen_text ttf f c "" st =
        (Except.ok (TextureManager.get_white st).1, (TextureManager.get_white st).2)) ∧
    (∀ (st : State) (decode : String → Option BinaryImage)
        (ttf : Nat → Color → String → Option SDL_Surface) (cs : List Call),
      (TextureManager.get_white st).2.tex_man.white = some (TextureManager.get_white st).1 ∧
      TextureManager.get_white (run_calls decode ttf cs (TextureManager.get_white st).2) =
        ((TextureManager.get_white st).1,
          run_calls decode ttf cs (TextureManager.get_white st).2)) := by
  refine ⟨?_, TextureManager.gen_text_empty, ?_⟩
  · intro ttf ttf' ttf'' decode f₁ f₂ c₁ c₂ msg st st₁ tex cs hne hcall
    have hit : find_text st₁.tex_man.text_textures msg = some tex := by
      cases hf : find_text st.tex_man.text_textures msg with
      | some tex' =>
        rw [TextureManager.gen_text_hit ttf f₁ c₁ msg st tex' hne hf] at hcall
        simp only [Prod.mk.injEq, Except.ok.injEq] at hcall
        rw [← hcall.1, ← hcall.2]
        exact hf
      | none =>
        cases hr : ttf f₁ c₁ msg with
        | none =>
          have herr := TextureManager.gen_text_miss_error ttf f₁ c₁ msg st hne hf hr
          rw [hcall] at herr
          simp at herr
        | some s =>
          obtain ⟨h1, h2⟩ := TextureManager.gen_text_miss_ok ttf f₁ c₁ msg st s hne hf hr
          rw [hcall] at h1 h2
          simp only [Except.ok.injEq] at h1
          rw [h2, h1, ← (find_text_assign_of_none _ _ st.heap.length hf).1]
          exact (find_text_assign_of_none _ _ st.heap.length hf).2
    exact ⟨TextureManager.gen_text_hit ttf' f₂ c₂ msg st₁ tex hne hit,
      TextureManager.gen_text_hit ttf' f₂ c₂ msg _ tex hne
        ((run_calls_cachesKept decode ttf'' cs st₁).2.1 _ _ hit)⟩
  · intro st decode ttf cs
    exact ⟨TextureManager.get_white_white st,
      TextureManager.get_white_of_some _ _
        ((run_calls_cachesKept decode ttf cs _).2.2 _ (TextureManager.get_white_white st))⟩

theorem gen_text_twice_returns_same_instance_witness :
    "hi" ≠ "" ∧
      TextureManager.gen_text sample_ttf 0 ⟨255, 255, 255⟩ "hi" sample_state =
        (Except.ok 2, (TextureManager.gen_text sample_ttf 0 ⟨255, 255, 255⟩ "hi" sample_state).2) ∧
      TextureManager.gen_text failing_ttf 1 ⟨0, 0, 0⟩ "hi"
          (TextureManager.gen_text sample_ttf 0 ⟨255, 255, 255⟩ "hi" sample_state).2 =
        (Except.ok 2, (TextureManager.gen_text sample_ttf 0 ⟨255, 255, 255⟩ "hi" sample_state).2) :=
  ⟨by decide, rfl,
    (gen_text_twice_returns_same_instance.1 sample_ttf failing_ttf failing_ttf missing_file
      0 1 ⟨255, 255, 255⟩ ⟨0, 0, 0⟩ "hi" sample_state _ 2 [] (by decide) rfl).1⟩

/-! ## Claim C8: loading a file that cannot be decoded -/

/-- Claim C8, evaluated where it fails: the file is missing and the options ask for an
instant upload of a non-editable texture (the default for editable); `load` returns the
8 x 8 dummy already uploaded, its CPU buffer released. The same happens for the default
options once the queued upload was drained and `load` is called again with the same key. -/
theorem load_missing_file_instant_upload_no_buffer :
    missing_file "missing.png" = none ∧
    (TextureManager.load missing_file "missing.png" { instant_upload := true } { }).1 = 0 ∧
    (TextureManager.load missing_file "missing.png" { instant_upload := true } { }).2.tex 0 =
      some { width := 8, height := 8, buffer := none, id := 1, managed := true } ∧
    (TextureManager.load missing_file "missing.png" { }
      (TextureManager.upload (TextureManager.load missing_file "missing.png" { } { }).2)).1 = 0 ∧
    (TextureManager.load missing_file "missing.png" { }
      (TextureManager.upload
        (TextureManager.load missing_file "missing.png" { } { }).2)).2.tex 0 =
      some { width := 8, height := 8, buffer := none, id := 1, managed := true } := by
  decide

/-- Claim C8 as amended: when decoding fails and the key is not cached yet, `load` returns
(without raising) a live cache-managed texture of width 8 and height 8. If instant_upload
is false or editable is true, its CPU buffer is present and is the dummy pattern; if
instant_upload is true and editable is false the buffer has already been released by the
upload. The dummy pattern has 64 pixels, pixel i is `((i * 8) << 16) | (i * 16)`, and its
first two pixels differ. -/
theorem load_missing_file_returns_dummy (decode : String → Option BinaryImage)
    (path : String) (o : TextureOptions) (st : State) (hd : decode path = none)
    (h : find_texture st.tex_man.textures (path, o) = none) :
    (∃ t, (TextureManager.load decode path o st).2.tex
          (TextureManager.load decode path o st).1 = some t ∧
        t.managed = true ∧ t.width = 8 ∧ t.height = 8 ∧
        ((o.instant_upload = false ∨ o.editable = true) →
          t.buffer = (Texture.create_dummy Texture.new).buffer) ∧
        ((o.instant_upload = true ∧ o.editable = false) → t.buffer = none)) ∧
    (∃ b, (Texture.create_dummy Texture.new).buffer = some b ∧ b.length = 64 ∧
        (∀ i, i < 64 → b[i]? = some (((i * 8) <<< 16) ||| (i * 16))) ∧ b[0]? ≠ b[1]?) := by
  constructor
  · obtain ⟨t₀, ht₀, hdef, himm⟩ := TextureManager.load_miss_tex decode path o st h
    rw [hd] at ht₀
    simp only at ht₀
    cases hi : o.instant_upload with
    | false =>
      refine ⟨_, (hdef hi).1, rfl, ?_, ?_, ?_, ?_⟩
      · rw [ht₀]; rfl
      · rw [ht₀]; rfl
      · intro _; rw [ht₀]
      · intro hc; simp at hc
    | true =>
      refine ⟨_, (himm hi).1, rfl, ?_, ?_, ?_, ?_⟩
      · rw [ht₀]; rfl
      · rw [ht₀]; rfl
      · intro hc
        have he : o.editable = true := by simpa using hc
        simp [he, ht₀]
      · intro hc
        simp [hc.2]
  · refine ⟨_, rfl, by decide, by decide, by decide⟩

theorem load_missing_file_returns_dummy_witness :
    missing_file "missing.png" = none ∧
      find_texture sample_state.tex_man.textures ("missing.png", { }) = none ∧
      (∃ t, (TextureManager.load missing_file "missing.png" { } sample_state).2.tex
            (TextureManager.load missing_file "missing.png" { } sample_state).1 = some t ∧
          t.managed = true ∧ t.width = 8 ∧ t.height = 8 ∧
          (((({ } : TextureOptions).instant_upload = false) ∨
              (({ } : TextureOptions).editable = true)) →
            t.buffer = (Texture.create_dummy Texture.new).buffer) ∧
          (((({ } : TextureOptions).instant_upload = true) ∧
              (({ } : TextureOptions).editable = false)) → t.buffer = none)) :=
  ⟨rfl, rfl,
    (load_missing_file_returns_dummy missing_file "missing.png" { } sample_state rfl rfl).1⟩

/-! ## Claim C9: load with instant_upload -/

/-- Claim C9, evaluated where it fails: a key is cached by a load without instant_upload,
then loaded again with instant_upload set. The options compare equal, the second call is
a cache hit and returns the texture as it is: no device handle (id = 0, no live name on
the device) and its request still pending in the queue. -/
theorem load_instant_upload_after_deferred_load_not_uploaded :
    TextureOptions.operator_eq { } { instant_upload := true } = true ∧
    (TextureManager.load missing_file "a.png" { instant_upload := true }
      (TextureManager.load missing_file "a.png" { } { }).2).1 = 0 ∧
    ((TextureManager.load missing_file "a.png" { instant_upload := true }
      (TextureManager.load missing_file "a.png" { } { }).2).2.tex 0).map (fun t => t.id)
        = some 0 ∧
    (TextureManager.load missing_file "a.png" { instant_upload := true }
      (TextureManager.load missing_file "a.png" { } { }).2).2.gl_textures = [] ∧
    (TextureManager.load missing_file "a.png" { instant_upload := true }
      (TextureManager.load missing_file "a.png" { } { }).2).2.tex_man.unuploaded_textures
        = [{ texture := 0 }] := by
  decide

/-- Claim C9 as amended: in a state `st` reached from the initial state by any sequence of
client calls, a `load` with instant_upload set that does not find an equal key in the
cache returns a texture that was uploaded during the call: its handle is non-zero and
live on the device, the trace of the call holds the decode followed by the
`glTexImage2D` of the new object `t₀`, the queue is the one from before the call and no
request in it targets the returned texture. -/
theorem load_instant_upload_on_miss_is_uploaded (decode₀ decode : String → Option BinaryImage)
    (ttf : Nat → Color → String → Option SDL_Surface) (cs : List Call)
    (path : String) (o : TextureOptions) (st : State)
    (hst : st = run_calls decode₀ ttf cs State.initial)
    (hi : o.instant_upload = true)
    (h : find_texture st.tex_man.textures (path, o) = none) :
    ∃ (t t₀ : Texture) (l : List Event),
      (TextureManager.load decode path o st).2.tex
          (TextureManager.load decode path o st).1 = some t ∧
      t.id ≠ 0 ∧ t.id ∈ (TextureManager.load decode path o st).2.gl_textures ∧
      (TextureManager.load decode path o st).2.log =
        st.log ++ Event.BinaryImage_load path :: l ∧
      Event.glTexImage2D GL_TEXTURE_2D 0 (upload_internal_format o) t₀.width t₀.height 0
        (gl_format o.format) (gl_type o.type) t₀.buffer ∈ l ∧
      (TextureManager.load decode path o st).2.tex_man.unuploaded_textures =
        st.tex_man.unuploaded_textures ∧
      ∀ r ∈ (TextureManager.load decode path o st).2.tex_man.unuploaded_textures,
        r.texture ≠ (TextureManager.load decode path o st).1 := by
  have hq : QueueAllocated st := by
    rw [hst]
    exact run_calls_queueAllocated decode₀ ttf cs State.initial State.initial_queueAllocated
  obtain ⟨t₀, _, _, himm⟩ := TextureManager.load_miss_tex decode path o st h
  obtain ⟨h1, h2, h3, l, hl, hmem⟩ := himm hi
  refine ⟨_, t₀, l, h1, ?_, ?_, hl, hmem, h2, ?_⟩
  · simp
  · simpa using h3
  · intro r hr
    rw [h2] at hr
    rw [(TextureManager.load_miss decode path o st h).1]
    exact Nat.ne_of_lt (hq r hr)

theorem load_instant_upload_on_miss_is_uploaded_witness :
    ({ instant_upload := true } : TextureOptions).instant_upload = true ∧
      find_texture (run_calls missing_file sample_ttf [Call.load "a.png" { }]
        State.initial).tex_man.textures ("b.png", { instant_upload := true }) = none ∧
      (run_calls missing_file sample_ttf [Call.load "a.png" { }]
        State.initial).tex_man.unuploaded_textures = [{ texture := 0 }] ∧
      ∃ (t t₀ : Texture) (l : List Event),
        (TextureManager.load sample_decode "b.png" { instant_upload := true }
            (run_calls missing_file sample_ttf [Call.load "a.png" { }] State.initial)).2.tex
          (TextureManager.load sample_decode "b.png" { instant_upload := true }
            (run_calls missing_file sample_ttf [Call.load "a.png" { }] State.initial)).1
              = some t ∧
        t.id ≠ 0 ∧
        t.id ∈ (TextureManager.load sample_decode "b.png" { instant_upload := true }
          (run_calls missing_file sample_ttf [Call.load "a.png" { }]
            State.initial)).2.gl_textures ∧
        (TextureManager.load sample_decode "b.png" { instant_upload := true }
          (run_calls missing_file sample_ttf [Call.load "a.png" { }] State.initial)).2.log =
            (run_calls missing_file sample_ttf [Call.load "a.png" { }] State.initial).log ++
              Event.BinaryImage_load "b.png" :: l ∧
        Event.glTexImage2D GL_TEXTURE_2D 0
          (upload_internal_format { instant_upload := true }) t₀.width t₀.height 0
          (gl_format ({ instant_upload := true } : TextureOptions).format)
          (gl_type ({ instant_upload := true } : TextureOptions).type) t₀.buffer ∈ l ∧
        (TextureManager.load sample_decode "b.png" { instant_upload := true }
          (run_calls missing_file sample_ttf [Call.load "a.png" { }]
            State.initial)).2.tex_man.unuploaded_textures =
          (run_calls missing_file sample_ttf [Call.load "a.png" { }]
            State.initial).tex_man.unuploaded_textures ∧
        ∀ r ∈ (TextureManager.load sample_decode "b.png" { instant_upload := true }
            (run_calls missing_file sample_ttf [Call.load "a.png" { }]
              State.initial)).2.tex_man.unuploaded_textures,
          r.texture ≠ (TextureManager.load sample_decode "b.png" { instant_upload := true }
            (run_calls missing_file sample_ttf [Call.load "a.png" { }] State.initial)).1 :=
  ⟨rfl, by decide, by decide,
    load_instant_upload_on_miss_is_uploaded missing_file sample_decode sample_ttf
      [Call.load "a.png" { }] "b.png" { instant_upload := true } _ rfl rfl (by decide)⟩

/-! ## Claim C10: release of raw surfaces -/

/-- Claim C10, evaluated where it fails. A surface of width 0 is never released:
neither by the immediate path of an unmanaged texture nor by the drain of its queued
request, and the manager's teardown does not see it any more. A surface whose request
is pending when its target texture is destroyed is never released either: the
destructor erases the request and the teardown finds nothing to free. (For comparison,
a surface of non-zero size is released exactly once by the immediate path, by the drain
and by the teardown.) -/
theorem surface_released_zero_times :
    (TextureManager.destroy
      (Texture.upload_surface 0 zero_width_surface sample_unmanaged_state)).log.count
        (Event.SDL_FreeSurface zero_width_surface.addr) = 0 ∧
    (TextureManager.destroy (TextureManager.upload
      (Texture.upload_surface 0 zero_width_surface sample_state))).log.count
        (Event.SDL_FreeSurface zero_width_surface.addr) = 0 ∧
    (TextureManager.destroy (Texture.destroy 0
      (Texture.upload_surface 0 sample_surface sample_state))).log.count
        (Event.SDL_FreeSurface sample_surface.addr) = 0 ∧
    (TextureManager.destroy
      (Texture.upload_surface 0 sample_surface sample_unmanaged_state)).log.count
        (Event.SDL_FreeSurface sample_surface.addr) = 1 ∧
    (TextureManager.destroy (TextureManager.upload
      (Texture.upload_surface 0 sample_surface sample_state))).log.count
        (Event.SDL_FreeSurface sample_surface.addr) = 1 ∧
    (TextureManager.destroy
      (Texture.upload_surface 0 sample_surface sample_state)).log.count
        (Event.SDL_FreeSurface sample_surface.addr) = 1 := by
  decide

/-! ## Claim C11: one device handle per texture -/

/-- Claim C11, evaluated where it fails: an unmanaged texture is uploaded with
`upload(options)` (handle 1) and then with `upload(surface)`. `_upload(surface)` generates
handle 2 without deleting handle 1: no `glDeleteTextures` is issued and both names are
live, the first one no longer held by the texture. After `delete_gputex` the name 2 is
not live any more, while `id` still holds 2. (For comparison, a second `upload(options)`
deletes handle 1 before generating handle 2.) -/
theorem upload_surface_keeps_previous_handle :
    ((Texture.upload 0 { } sample_unmanaged_state).tex 0).map (fun t => t.id) = some 1 ∧
    (Texture.upload 0 { } sample_unmanaged_state).gl_textures = [1] ∧
    ((Texture.upload_surface 0 sample_surface
      (Texture.upload 0 { } sample_unmanaged_state)).tex 0).map (fun t => t.id) = some 2 ∧
    (Texture.upload_surface 0 sample_surface
      (Texture.upload 0 { } sample_unmanaged_state)).gl_textures = [1, 2] ∧
    Event.glDeleteTextures 1 ∉ (Texture.upload_surface 0 sample_surface
      (Texture.upload 0 { } sample_unmanaged_state)).log ∧
    (Texture.delete_gputex 2 (Texture.upload_surface 0 sample_surface
      (Texture.upload 0 { } sample_unmanaged_state))).gl_textures = [1] ∧
    ((Texture.delete_gputex 2 (Texture.upload_surface 0 sample_surface
      (Texture.upload 0 { } sample_unmanaged_state))).tex 0).map (fun t => t.id) = some 2 ∧
    (Texture.upload 0 { } (Texture.upload 0 { } sample_unmanaged_state)).gl_textures = [2] ∧
    Event.glDeleteTextures 1 ∈
      (Texture.upload 0 { } (Texture.upload 0 { } sample_unmanaged_state)).log := by
  decide

/-! ## Claim C12: the internal format handed to the device -/

/-- Claim C12: `_upload(options)` issues one `glTexImage2D`, whose internal format is the
plain translation of `options.internal_format` unless compressed = true and editable =
false; in that case it is `GL_COMPRESSED_RGBA`, `GL_COMPRESSED_RED`, `GL_COMPRESSED_SRGB`
or `GL_COMPRESSED_SRGB_ALPHA` for RGBA, RED, SRGB and SRGB_ALPHA, and `GL_RGB32F`
(unchanged) for RGB32F. So the value differs from the plain translation exactly when
compression is requested, the texture is non-editable and the format is not RGB32F. -/
theorem upload_internal_format_compressed_iff (st : State) (p : Nat) (t : Texture)
    (o : TextureOptions) (h : st.tex p = some t) :
    (∃ l₁ l₂, (Texture._upload p o st).log =
        st.log ++ l₁ ++ [Event.glTexImage2D GL_TEXTURE_2D 0 (upload_internal_format o) t.width
          t.height 0 (gl_format o.format) (gl_type o.type) t.buffer] ++ l₂ ∧
      ∀ e ∈ l₁ ++ l₂, ∀ tg lv f w ht b fm ty d,
        e ≠ Event.glTexImage2D tg lv f w ht b fm ty d) ∧
    (¬ (o.compressed = true ∧ o.editable = false) →
      upload_internal_format o = gl_format o.internal_format) ∧
    ((o.compressed = true ∧ o.editable = false) →
      upload_internal_format o =
        match o.internal_format with
        | TextureOptions.Format.RGBA => GL_COMPRESSED_RGBA
        | TextureOptions.Format.RED => GL_COMPRESSED_RED
        | TextureOptions.Format.SRGB => GL_COMPRESSED_SRGB
        | TextureOptions.Format.SRGB_ALPHA => GL_COMPRESSED_SRGB_ALPHA
        | TextureOptions.Format.RGB32F => GL_RGB32F) ∧
    (gl_format o.internal_format =
        match o.internal_format with
        | TextureOptions.Format.RGBA => GL_RGBA
        | TextureOptions.Format.RED => GL_RED
        | TextureOptions.Format.SRGB => GL_SRGB
        | TextureOptions.Format.SRGB_ALPHA => GL_SRGB_ALPHA
        | TextureOptions.Format.RGB32F => GL_RGB32F) ∧
    (upload_internal_format o ≠ gl_format o.internal_format ↔
      (o.compressed = true ∧ o.editable = false ∧
        o.internal_format ≠ TextureOptions.Format.RGB32F)) := by
  refine ⟨?_, upload_internal_format_of_not_compressing o, ?_, ?_, ?_⟩
  · refine ⟨(if t.id ≠ 0 then [Event.glDeleteTextures t.id] else []) ++
        [Event.glGenTextures (st.gl_names + 1),
          Event.glBindTexture GL_TEXTURE_2D (st.gl_names + 1)],
      [Event.glTexParameteri GL_TEXTURE_2D GL_TEXTURE_WRAP_S (gl_wrap o.wrap_s),
          Event.glTexParameteri GL_TEXTURE_2D GL_TEXTURE_WRAP_T (gl_wrap o.wrap_t),
          Event.glTexParameteri GL_TEXTURE_2D GL_TEXTURE_MIN_FILTER (gl_filter o.min_filter),
          Event.glTexParameteri GL_TEXTURE_2D GL_TEXTURE_MAG_FILTER (gl_filter o.mag_filter)] ++
        (if upload_gen_mipmaps o then
          [Event.glBindTexture GL_TEXTURE_2D (st.gl_names + 1),
            Event.glGenerateMipmap GL_TEXTURE_2D]
        else []), ?_, ?_⟩
    · rw [Texture._upload_log_exact h o]
      simp
    · intro e he tg lv f w ht b fm ty d heq
      subst heq
      by_cases h0 : t.id = 0 <;> cases hm : upload_gen_mipmaps o <;> simp [h0, hm] at he
  · intro hc
    rw [upload_internal_format_of_compressing o hc]
    cases o.internal_format <;> rfl
  · cases o.internal_format <;> rfl
  · constructor
    · intro hne
      by_cases hc : o.compressed = true ∧ o.editable = false
      · refine ⟨hc.1, hc.2, ?_⟩
        intro hf
        apply hne
        rw [upload_internal_format_of_compressing o hc, hf]
        rfl
      · exact absurd (upload_internal_format_of_not_compressing o hc) hne
    · rintro ⟨hc, he, hf⟩
      rw [upload_internal_format_of_compressing o ⟨hc, he⟩]
      revert hf
      cases o.internal_format <;> simp [gl_format, gl_compressed_format]

theorem upload_internal_format_compressed_iff_witness :
    sample_state.tex 0 = some sample_texture ∧
      (upload_internal_format { internal_format := TextureOptions.Format.SRGB } ≠
          gl_format ({ internal_format := TextureOptions.Format.SRGB } : TextureOptions).internal_format ↔
        (({ internal_format := TextureOptions.Format.SRGB } : TextureOptions).compressed = true ∧
          ({ internal_format := TextureOptions.Format.SRGB } : TextureOptions).editable = false ∧
          ({ internal_format := TextureOptions.Format.SRGB } : TextureOptions).internal_format ≠
            TextureOptions.Format.RGB32F)) :=
  ⟨rfl,
    (upload_internal_format_compressed_iff sample_state 0 sample_texture
      { internal_format := TextureOptions.Format.SRGB } rfl).2.2.2.2⟩

/-! ## Claim C13: when mipmaps are generated -/

/-- Claim C13, evaluated where it fails: min_filter is NEAREST (the default) and
mag_filter is LINEAR_MIPMAP, one of the four mipmap filters; `_upload(options)` hands
`GL_LINEAR_MIPMAP_LINEAR` to the device as magnification filter and does not call
`glGenerateMipmap`. -/
theorem upload_mag_mipmap_filter_no_mipmaps :
    sample_state.tex 0 = some sample_texture ∧
    ({ mag_filter := TextureOptions.Filter.LINEAR_MIPMAP } : TextureOptions).min_filter =
      TextureOptions.Filter.NEAREST ∧
    Event.glTexParameteri GL_TEXTURE_2D GL_TEXTURE_MAG_FILTER GL_LINEAR_MIPMAP_LINEAR ∈
      (Texture._upload 0 { mag_filter := TextureOptions.Filter.LINEAR_MIPMAP } sample_state).log ∧
    Event.glGenerateMipmap GL_TEXTURE_2D ∉
      (Texture._upload 0 { mag_filter := TextureOptions.Filter.LINEAR_MIPMAP } sample_state).log := by
  decide

/-- Claim C13 as amended: `_upload(options)` on a live texture calls `glGenerateMipmap`
(it runs `gen_mipmaps`) if and only if min_filter is one of the four mipmap filters
LINEAR_MIPMAP, NEAREST_MIPMAP, NEAREST_LINEAR_MIPMAP, LINEAR_NEAREST_MIPMAP; mag_filter
plays no part. -/
theorem upload_generates_mipmaps_iff_min_filter (st : State) (p : Nat) (t : Texture)
    (o : TextureOptions) (h : st.tex p = some t) :
    ∃ l, (Texture._upload p o st).log = st.log ++ l ∧
      (Event.glGenerateMipmap GL_TEXTURE_2D ∈ l ↔
        (o.min_filter = TextureOptions.Filter.LINEAR_MIPMAP ∨
          o.min_filter = TextureOptions.Filter.NEAREST_MIPMAP ∨
          o.min_filter = TextureOptions.Filter.NEAREST_LINEAR_MIPMAP ∨
          o.min_filter = TextureOptions.Filter.LINEAR_NEAREST_MIPMAP)) := by
  refine ⟨_, by rw [Texture._upload_log_exact h o, List.append_assoc, List.append_assoc], ?_⟩
  rw [← upload_gen_mipmaps_iff]
  by_cases h0 : t.id = 0 <;> cases hm : upload_gen_mipmaps o <;> simp [h0]

theorem upload_generates_mipmaps_iff_min_filter_witness :
    sample_state.tex 0 = some sample_texture ∧
      ∃ l, (Texture._upload 0 { min_filter := TextureOptions.Filter.LINEAR_MIPMAP }
          sample_state).log = sample_state.log ++ l ∧
        (Event.glGenerateMipmap GL_TEXTURE_2D ∈ l ↔
          (({ min_filter := TextureOptions.Filter.LINEAR_MIPMAP } : TextureOptions).min_filter =
              TextureOptions.Filter.LINEAR_MIPMAP ∨
            ({ min_filter := TextureOptions.Filter.LINEAR_MIPMAP } : TextureOptions).min_filter =
              TextureOptions.Filter.NEAREST_MIPMAP ∨
            ({ min_filter := TextureOptions.Filter.LINEAR_MIPMAP } : TextureOptions).min_filter =
              TextureOptions.Filter.NEAREST_LINEAR_MIPMAP ∨
            ({ min_filter := TextureOptions.Filter.LINEAR_MIPMAP } : TextureOptions).min_filter =
              TextureOptions.Filter.LINEAR_NEAREST_MIPMAP)) :=
  ⟨rfl,
    upload_generates_mipmaps_iff_min_filter sample_state 0 sample_texture
      { min_filter := TextureOptions.Filter.LINEAR_MIPMAP } rfl⟩

/-! ## Claim C14: the layers of a texture array -/

/-- Claim C14, evaluated where it fails. A 5 x 5 image cut into 5 x 5 tiles: the array is
allocated with depth 16 and the upload of the last tile goes to layer 24. A 2 x 1 image
cut into 2 x 1 tiles: the second tile (row 0, column 1) is uploaded to layer 2 from
offset 2, which is outside the buffer of 2 pixels, where the claim has layer 1 and
offset 1. -/
theorem texture_array_layers_beyond_depth :
    1 ≤ sample_array_5x5.tiles_x ∧ 1 ≤ sample_array_5x5.tiles_y ∧
    sample_array_5x5.tiles_x ∣ sample_array_5x5.width ∧
    sample_array_5x5.tiles_y ∣ sample_array_5x5.height ∧
    Event.glTexImage3D GL_TEXTURE_2D_ARRAY 0 GL_RGBA 1 1 16 0 GL_RGBA GL_UNSIGNED_BYTE none ∈
      (TextureArray.upload sample_array_5x5 { }).2.log ∧
    Event.glTexSubImage3D GL_TEXTURE_2D_ARRAY 0 0 0 24 1 1 1 GL_RGBA GL_UNSIGNED_BYTE 24 ∈
      (TextureArray.upload sample_array_5x5 { }).2.log ∧
    1 ≤ sample_array_2x1.tiles_x ∧ 1 ≤ sample_array_2x1.tiles_y ∧
    sample_array_2x1.tiles_x ∣ sample_array_2x1.width ∧
    sample_array_2x1.tiles_y ∣ sample_array_2x1.height ∧
    TextureArray.tile_uploads sample_array_2x1 =
      [Event.glTexSubImage3D GL_TEXTURE_2D_ARRAY 0 0 0 0 1 1 1 GL_RGBA GL_UNSIGNED_BYTE 0,
       Event.glTexSubImage3D GL_TEXTURE_2D_ARRAY 0 0 0 2 1 1 1 GL_RGBA GL_UNSIGNED_BYTE 2] ∧
    sample_array_2x1.buffer = some [0, 1] := by
  decide

/-- Claim C14 as amended: for `tiles_x = tiles_y = n` with `1 ≤ n` and `n * n ≤ 16` and an
image whose width and height are divisible by `n`, `TextureArray::upload` allocates an
array of depth 16 and then issues exactly `n * n` layer uploads, the `k`-th of them to
layer `k` (so the layers are pairwise distinct and below 16); the upload for the tile in
tile-row `r` and tile-column `c` is the one to layer `r * n + c`, it reads a
`(width / n)` x `(height / n)` region starting at pixel offset
`r * (height / n) * width + c * (width / n)`, and every pixel of that region lies inside
the buffer of `width * height` pixels. -/
theorem texture_array_square_tiles_layers (a : TextureArray) (st : State) (n : Nat)
    (hn : 1 ≤ n) (h16 : n * n ≤ 16) (hx : a.tiles_x = n) (hy : a.tiles_y = n)
    (hw : n ∣ a.width) (hh : n ∣ a.height) :
    (TextureArray.upload a st).2.log =
      st.log ++ [Event.glGenTextures (st.gl_names + 1),
        Event.glBindTexture GL_TEXTURE_2D_ARRAY (st.gl_names + 1),
        Event.glTexParameteri GL_TEXTURE_2D_ARRAY GL_TEXTURE_MIN_FILTER GL_LINEAR,
        Event.glTexParameteri GL_TEXTURE_2D_ARRAY GL_TEXTURE_MAG_FILTER GL_LINEAR,
        Event.glTexParameteri GL_TEXTURE_2D_ARRAY GL_TEXTURE_WRAP_S GL_REPEAT,
        Event.glTexParameteri GL_TEXTURE_2D_ARRAY GL_TEXTURE_WRAP_T GL_REPEAT,
        Event.glTexImage3D GL_TEXTURE_2D_ARRAY 0 GL_RGBA (a.width / n : Nat)
          (a.height / n : Nat) 16 0 GL_RGBA GL_UNSIGNED_BYTE none,
        Event.glPixelStorei GL_UNPACK_ROW_LENGTH a.width,
        Event.glPixelStorei GL_UNPACK_IMAGE_HEIGHT a.height] ++
      TextureArray.tile_uploads a ++
      [Event.glBindTexture GL_TEXTURE_2D_ARRAY 0,
        Event.glPixelStorei GL_UNPACK_ROW_LENGTH 0,
        Event.glPixelStorei GL_UNPACK_IMAGE_HEIGHT 0] ∧
    TextureArray.tile_uploads a =
      (List.range (n * n)).map (fun k =>
        Event.glTexSubImage3D GL_TEXTURE_2D_ARRAY 0 0 0 (k : Nat) (a.width / n : Nat)
          (a.height / n : Nat) 1 GL_RGBA GL_UNSIGNED_BYTE
          ((k / n) * (a.height / n) * a.width + (k % n) * (a.width / n))) ∧
    (TextureArray.tile_uploads a).length = n * n ∧
    (∀ r c, r < n → c < n →
      r * n + c < 16 ∧
      (TextureArray.tile_uploads a)[r * n + c]? =
        some (Event.glTexSubImage3D GL_TEXTURE_2D_ARRAY 0 0 0 (r * n + c : Nat)
          (a.width / n : Nat) (a.height / n : Nat) 1 GL_RGBA GL_UNSIGNED_BYTE
          (r * (a.height / n) * a.width + c * (a.width / n))) ∧
      ∀ j i, j < a.height / n → i < a.width / n →
        r * (a.height / n) * a.width + c * (a.width / n) + j * a.width + i <
          a.width * a.height) := by
  have hsq := TextureArray.tile_uploads_square a n hn hx hy
  refine ⟨?_, hsq, ?_, ?_⟩
  · have := TextureArray.upload_log a st
    rw [hx, hy] at this
    exact this
  · rw [hsq]
    simp
  · intro r c hr hc
    have hk : r * n + c < n * n := by
      have : (r + 1) * n ≤ n * n := Nat.mul_le_mul_right _ hr
      nlinarith
    have h1 : (r * n + c) / n = r := by
      rw [Nat.add_comm, Nat.add_mul_div_right _ _ hn, Nat.div_eq_of_lt hc, Nat.zero_add]
    have h2 : (r * n + c) % n = c := by
      rw [Nat.add_comm, Nat.add_mul_mod_self_right, Nat.mod_eq_of_lt hc]
    refine ⟨Nat.lt_of_lt_of_le hk h16, ?_, ?_⟩
    · rw [hsq, List.getElem?_map, List.getElem?_range hk]
      simp only [Option.map_some', h1, h2]
    · intro j i hj hi
      exact tile_region_inside_buffer a.width a.height n r c j i hw hh hr hc hj hi

theorem texture_array_square_tiles_layers_witness :
    1 ≤ 4 ∧ 4 * 4 ≤ 16 ∧ sample_array_4x4.tiles_x = 4 ∧ sample_array_4x4.tiles_y = 4 ∧
      4 ∣ sample_array_4x4.width ∧ 4 ∣ sample_array_4x4.height ∧
      (TextureArray.tile_uploads sample_array_4x4).length = 4 * 4 ∧
      TextureArray.tile_uploads sample_array_4x4 =
        (List.range (4 * 4)).map (fun k =>
          Event.glTexSubImage3D GL_TEXTURE_2D_ARRAY 0 0 0 (k : Nat)
            (sample_array_4x4.width / 4 : Nat) (sample_array_4x4.height / 4 : Nat) 1 GL_RGBA
            GL_UNSIGNED_BYTE
            ((k / 4) * (sample_array_4x4.height / 4) * sample_array_4x4.width +
              (k % 4) * (sample_array_4x4.width / 4))) :=
  ⟨by decide, by decide, rfl, rfl, by decide, by decide,
    (texture_array_square_tiles_layers sample_array_4x4 { } 4 (by decide) (by decide) rfl rfl
      (by decide) (by decide)).2.2.1,
    (texture_array_square_tiles_layers sample_array_4x4 { } 4 (by decide) (by decide) rfl rfl
      (by decide) (by decide)).2.1⟩

/-! ## Claim C15: failure of the font rasterizer -/

/-- Claim C15: for a non-empty text that is not cached and whose rasterization fails,
`gen_text` raises the error and leaves the manager as it was (the text-keyed map, the
path-keyed map, the upload queue and `white` are unchanged); the only external call is
the rasterizer call, no device call is made, and the texture object created for the call
is destroyed again. A later call with the same text (whatever the font, the colour and
the rasterizer) calls the rasterizer again. -/
theorem gen_text_rasterization_failure_raises
    (ttf : Nat → Color → String → Option SDL_Surface) (font : Nat) (color : Color)
    (msg : String) (st : State) (hne : msg ≠ "")
    (hmiss : find_text st.tex_man.text_textures msg = none)
    (hr : ttf font color msg = none) :
    (TextureManager.gen_text ttf font color msg st).1 =
      Except.error "Cannot create text surface" ∧
    (TextureManager.gen_text ttf font color msg st).2.tex_man = st.tex_man ∧
    (TextureManager.gen_text ttf font color msg st).2.log =
      st.log ++ [Event.TTF_RenderUTF8_Blended font color msg] ∧
    (TextureManager.gen_text ttf font color msg st).2.gl_textures = st.gl_textures ∧
    (TextureManager.gen_text ttf font color msg st).2.heap = st.heap ++ [none] ∧
    ∀ (ttf' : Nat → Color → String → Option SDL_Surface) (font' : Nat) (color' : Color),
      (TextureManager.gen_text ttf' font' color' msg
          (TextureManager.gen_text ttf font color msg st).2).2.log =
        st.log ++ [Event.TTF_RenderUTF8_Blended font color msg,
          Event.TTF_RenderUTF8_Blended font' color' msg] := by
  obtain ⟨h1, h2, h3, h4⟩ :=
    TextureManager.gen_text_miss_error_state ttf font color msg st hne hmiss hr
  refine ⟨TextureManager.gen_text_miss_error ttf font color msg st hne hmiss hr,
    h1, h2, h3, h4, ?_⟩
  intro ttf' font' color'
  rw [TextureManager.gen_text_miss_log ttf' font' color' msg _ hne (by rw [h1]; exact hmiss), h2]
  simp

theorem gen_text_rasterization_failure_raises_witness :
    "hi" ≠ "" ∧ find_text sample_state.tex_man.text_textures "hi" = none ∧
      failing_ttf 0 ⟨255, 255, 255⟩ "hi" = none ∧
      (TextureManager.gen_text failing_ttf 0 ⟨255, 255, 255⟩ "hi" sample_state).1 =
        Except.error "Cannot create text surface" ∧
      (TextureManager.gen_text failing_ttf 0 ⟨255, 255, 255⟩ "hi" sample_state).2.tex_man =
        sample_state.tex_man :=
  ⟨by decide, rfl, rfl,
    (gen_text_rasterization_failure_raises failing_ttf 0 ⟨255, 255, 255⟩ "hi" sample_state
      (by decide) rfl rfl).1,
    (gen_text_rasterization_failure_raises failing_ttf 0 ⟨255, 255, 255⟩ "hi" sample_state
      (by decide) rfl rfl).2.1⟩

/-! ## Claim C16: `fast_erase_all` -/

/-- Claim C16: after `fast_erase_all(c, v)` no element of `c` equals `v`; the remaining
elements are a permutation of the original elements different from `v` (the same
multiset, the order may differ); the length drops by the number of occurrences of `v`; and
a container without `v` is returned unchanged. -/
theorem fast_erase_all_removes_all_and_keeps_the_rest {α : Type} [DecidableEq α]
    (c : List α) (v : α) :
    v ∉ fast_erase_all c v ∧
    (fast_erase_all c v).Perm (c.filter (fun x => x != v)) ∧
    (∀ x, (fast_erase_all c v).count x = if x = v then 0 else c.count x) ∧
    (fast_erase_all c v).length = c.length - c.count v ∧
    (v ∉ c → fast_erase_all c v = c) := by
  have hperm := fast_erase_all_perm c v
  refine ⟨?_, hperm, ?_, ?_, ?_⟩
  · intro hmem
    have := (hperm.mem_iff).mp hmem
    simp at this
  · intro x
    rw [hperm.count_eq]
    by_cases hx : x = v
    · subst hx
      simp [List.count_eq_zero]
    · simp only [hx, if_false]
      rw [List.count_filter]
      simpa using hx
  · rw [hperm.length_eq]
    have h1 : c.count v = c.countP (fun x => x == v) := rfl
    have h2 := List.length_eq_countP_add_countP (fun x => x == v) c
    have h3 : (c.filter (fun x => x != v)).length = c.countP (fun x => ¬ (x == v) = true) := by
      rw [← List.countP_eq_length_filter]
      congr 1
      funext x
      by_cases hx : x = v <;> simp [bne, hx]
    rw [h3, h1]
    omega
  · intro h
    exact fast_erase_all_loop_of_not_mem v c h c.length

theorem fast_erase_all_removes_all_and_keeps_the_rest_witness :
    (7 : Nat) ∉ [1, 2, 3] ∧ fast_erase_all [1, 2, 3] 7 = [1, 2, 3] ∧
      fast_erase_all [1, 2, 1, 3, 1, 4] 1 = [3, 2, 4] :=
  ⟨by decide,
    (fast_erase_all_removes_all_and_keeps_the_rest [1, 2, 3] 7).2.2.2.2 (by decide),
    by decide⟩

/-! ## Claim C17: alignment and row length of a surface upload -/

/-- Claim C17, evaluated where it fails. A surface of width 0 with 4 bytes per pixel and
a row stride of 8: the stride is larger than the padded row size (8 > 0), but
`_upload(surface)` returns at its first line, so neither the alignment nor a row length is
communicated and the trace of device calls stays as it was. A surface of width `2^30`
with 4 bytes per pixel and a row stride of 8: `w * BytesPerPixel` leaves the range of
`int`, the computed `expected_pitch` is 0 where the padded row size is `2^32`, and the row
length 2 is communicated although the stride is smaller than the padded row size. -/
theorem upload_surface_zero_width_or_overflow :
    1 ≤ zero_width_padded_surface.format.BytesPerPixel ∧
    0 ≤ zero_width_padded_surface.w ∧ 0 ≤ zero_width_padded_surface.pitch ∧
    zero_width_padded_surface.pitch >
      surface_expected_pitch zero_width_padded_surface
        (unpack_alignment 3 zero_width_padded_surface.pitch) ∧
    sample_unmanaged_state.tex 0 = some { sample_texture with managed := false } ∧
    (Texture._upload_surface 0 zero_width_padded_surface sample_unmanaged_state).log =
      sample_unmanaged_state.log ∧
    1 ≤ overflowing_surface.format.BytesPerPixel ∧
    0 ≤ overflowing_surface.w ∧ 0 ≤ overflowing_surface.pitch ∧
    unpack_alignment 3 overflowing_surface.pitch = 8 ∧
    surface_expected_pitch overflowing_surface 8 = 0 ∧
    (overflowing_surface.w * overflowing_surface.format.BytesPerPixel + 8 - 1) / 8 * 8 =
      4294967296 ∧
    Event.glPixelStorei GL_UNPACK_ROW_LENGTH 2 ∈
      (Texture._upload_surface 0 overflowing_surface sample_unmanaged_state).log := by
  decide

/-- Claim C17 as amended: for every surface with bytes-per-pixel >= 1, width >= 0 and
pitch >= 0 whose pitch and `w * BytesPerPixel + 8` fit in an `int` (below `2^31`, so
that nothing overflows), the alignment `a` found by the search is 1, 2, 4 or 8 and divides
the pitch, `expected_pitch` is the row size padded to a multiple of `a`, the difference
between the pitch and `expected_pitch` is a multiple of `a`, and the test
`pitch - expected_pitch >= a` holds exactly when pitch > expected_pitch. If moreover the
width and the height are not 0 (otherwise `_upload(surface)` returns before the search),
the first two device calls of `_upload(surface)` on a live texture set the unpack
alignment to `a` and the row length to pitch / bytes-per-pixel, a non-zero value, when
pitch > expected_pitch, and to 0 when pitch <= expected_pitch. -/
theorem unpack_row_length_iff_pitch_exceeds (s : SDL_Surface) (a e : Int)
    (hb : 1 ≤ s.format.BytesPerPixel) (hw : 0 ≤ s.w) (hp : 0 ≤ s.pitch)
    (hpfit : s.pitch < 2147483648)
    (hfit : s.w * s.format.BytesPerPixel + 8 < 2147483648)
    (ha : a = unpack_alignment 3 s.pitch)
    (he : e = surface_expected_pitch s a) :
    (a = 1 ∨ a = 2 ∨ a = 4 ∨ a = 8) ∧ a ∣ s.pitch ∧
    e = (s.w * s.format.BytesPerPixel + a - 1) / a * a ∧
    a ∣ (s.pitch - e) ∧
    c_int (s.pitch - e) = s.pitch - e ∧
    (c_int (s.pitch - e) ≥ a ↔ s.pitch > e) ∧
    (s.w ≠ 0 → s.h ≠ 0 → ∀ (p : Nat) (t : Texture) (st : State), st.tex p = some t →
      (s.pitch > e → s.pitch.tdiv s.format.BytesPerPixel ≠ 0) ∧
      ∃ l, (Texture._upload_surface p s st).log =
        st.log ++ Event.glPixelStorei GL_UNPACK_ALIGNMENT a ::
          Event.glPixelStorei GL_UNPACK_ROW_LENGTH
            (if s.pitch > e then s.pitch.tdiv s.format.BytesPerPixel else 0) :: l) := by
  have hmem : a = 1 ∨ a = 2 ∨ a = 4 ∨ a = 8 := by
    rw [ha]
    exact unpack_alignment_mem s.pitch
  have hdvd : a ∣ s.pitch := by
    rw [ha]
    exact unpack_alignment_dvd s.pitch
  obtain ⟨heq, hge, hlt⟩ := surface_expected_pitch_eq s a hmem hw hfit
  rw [← he] at heq hge hlt
  have hdiff : a ∣ (s.pitch - e) := by
    rw [heq]
    exact Int.dvd_sub hdvd (Dvd.intro_left _ rfl)
  have ha1 : 1 ≤ a := by
    rcases hmem with h | h | h | h <;> omega
  have hx : 0 ≤ s.w * (s.format.BytesPerPixel : Int) :=
    Int.mul_nonneg hw (Int.ofNat_nonneg _)
  have hwrap : c_int (s.pitch - e) = s.pitch - e :=
    c_int_of_range (s.pitch - e) (by omega) (by omega)
  have hiff : c_int (s.pitch - e) ≥ a ↔ s.pitch > e := by
    rw [hwrap, ge_iff_pos_of_dvd a (s.pitch - e) ha1 hdiff]
    constructor <;> intro h <;> omega
  refine ⟨hmem, hdvd, heq, hdiff, hwrap, hiff, ?_⟩
  intro hw0 hh0 p t st htex
  constructor
  · intro hgt
    have hbpp : (1 : Int) ≤ (s.format.BytesPerPixel : Int) := by exact_mod_cast hb
    have hw1 : 1 ≤ s.w := by omega
    have hxb : (s.format.BytesPerPixel : Int) ≤ s.w * s.format.BytesPerPixel := by nlinarith
    have hle : (s.format.BytesPerPixel : Int) ≤ s.pitch := by omega
    rw [Int.tdiv_eq_ediv hp (by omega)]
    have : 1 ≤ s.pitch / (s.format.BytesPerPixel : Int) :=
      (Int.le_ediv_iff_mul_le (by omega)).mpr (by omega)
    omega
  · refine ⟨[Event.glGenTextures (st.gl_names + 1),
      Event.glBindTexture GL_TEXTURE_2D (st.gl_names + 1),
      Event.glTexImage2D GL_TEXTURE_2D 0 s.format.BytesPerPixel s.w s.h 0
        (surface_texture_format s) GL_UNSIGNED_BYTE (some s.pixels),
      Event.glTexParameteri GL_TEXTURE_2D GL_TEXTURE_MIN_FILTER GL_LINEAR_MIPMAP_LINEAR,
      Event.glTexParameteri GL_TEXTURE_2D GL_TEXTURE_MAG_FILTER GL_LINEAR,
      Event.glPixelStorei GL_UNPACK_ALIGNMENT 4,
      Event.glPixelStorei GL_UNPACK_ROW_LENGTH 0,
      Event.glBindTexture GL_TEXTURE_2D (st.gl_names + 1),
      Event.glGenerateMipmap GL_TEXTURE_2D, Event.SDL_FreeSurface s.addr], ?_⟩
    simp only [Texture._upload_surface, htex, State.setTex_log]
    rw [Texture._upload_surface_body_log t s st hw0 hh0, ← ha, ← he]
    simp only [hiff]

theorem unpack_row_length_iff_pitch_exceeds_witness :
    1 ≤ padded_surface.format.BytesPerPixel ∧ 0 ≤ padded_surface.w ∧
      0 ≤ padded_surface.pitch ∧ padded_surface.pitch < 2147483648 ∧
      padded_surface.w * padded_surface.format.BytesPerPixel + 8 < 2147483648 ∧
      (8 : Int) = unpack_alignment 3 padded_surface.pitch ∧
      (16 : Int) = surface_expected_pitch padded_surface 8 ∧
      ((8 : Int) = 1 ∨ (8 : Int) = 2 ∨ (8 : Int) = 4 ∨ (8 : Int) = 8) ∧
      (c_int (padded_surface.pitch - 16) ≥ 8 ↔ padded_surface.pitch > 16) :=
  ⟨by decide, by decide, by decide, by decide, by decide, by decide, by decide,
    (unpack_row_length_iff_pitch_exceeds padded_surface 8 16 (by decide) (by decide)
      (by decide) (by decide) (by decide) (by decide) (by decide)).1,
    (unpack_row_length_iff_pitch_exceeds padded_surface 8 16 (by decide) (by decide)
      (by decide) (by decide) (by decide) (by decide) (by decide)).2.2.2.2.2.1⟩

end Eng3D
